import Mathlib

/-!
Shallow embedding of the dirty-flag propagation and deferred finalization
core of `src/gallium/drivers/ilo/ilo_state.c` (the `ilo` Gallium driver's
state tracker), together with theorems settling the frozen claims about it.

Conventions of the embedding:
* opaque pointers (resources, shaders, sampler views, surfaces, client byte
  spans) are `Nat` identifiers; a nullable pointer is an `Option Nat`;
* fixed-capacity C arrays are total functions `Nat → _` (out-of-range slots
  are simply never read by the translated code, which mirrors the source's
  asserted preconditions);
* the external collaborators (kernel selection, upload/staging, surface
  initialisation) are taken as function parameters, applied to exactly the
  arguments the source passes them;
* `unsigned`/`uint32_t` arithmetic appears only as bitmask accumulation
  (`|||`/`&&&` on `Nat`) and index arithmetic that cannot overflow, so `Nat`
  models it exactly; the one signed quantity (`draw_start_offset`, which the
  source comments "could be negative") is an `Int`.
-/

/-- Modelled from the spec: the dirty-bit category catalogue lives in the
missing header `ilo_state.h` (`ILO_STATE_*` / `ILO_DIRTY_*`); only the bits'
distinctness and their count (at most 32, per the source's
`STATIC_ASSERT(ILO_STATE_COUNT <= 32)`) matter, so the categories used by the
claims are assigned distinct bit indices here. -/
def ILO_STATE_VS : Nat := 0

/-- Modelled from the spec: bit index of the geometry-shader category. -/
def ILO_STATE_GS : Nat := 1

/-- Modelled from the spec: bit index of the fragment-shader category. -/
def ILO_STATE_FS : Nat := 2

/-- Modelled from the spec: bit index of the rasterizer category. -/
def ILO_STATE_RASTERIZER : Nat := 3

/-- Modelled from the spec: bit index of the constant-buffer category. -/
def ILO_STATE_CONSTANT_BUFFER : Nat := 4

/-- Modelled from the spec: bit index of the index-buffer category. -/
def ILO_STATE_INDEX_BUFFER : Nat := 5

/-- Modelled from the spec: bit index of the vertex-buffer category. -/
def ILO_STATE_VERTEX_BUFFERS : Nat := 6

/-- Modelled from the spec: bit index of the viewport category. -/
def ILO_STATE_VIEWPORT : Nat := 7

/-- Modelled from the spec: bit index of the stream-output-target category. -/
def ILO_STATE_STREAM_OUTPUT_TARGETS : Nat := 8

/-- Modelled from the spec: bit index of the vertex-stage sampler-view category. -/
def ILO_STATE_VERTEX_SAMPLER_VIEWS : Nat := 9

/-- Modelled from the spec: bit index of the fragment-stage sampler-view category. -/
def ILO_STATE_FRAGMENT_SAMPLER_VIEWS : Nat := 10

/-- Modelled from the spec: bit index of the geometry-stage sampler-view category. -/
def ILO_STATE_GEOMETRY_SAMPLER_VIEWS : Nat := 11

/-- Modelled from the spec: bit index of the compute-stage sampler-view category. -/
def ILO_STATE_COMPUTE_SAMPLER_VIEWS : Nat := 12

/-- Modelled from the spec: bit index of the shader-resource category. -/
def ILO_STATE_SHADER_RESOURCES : Nat := 13

/-- Modelled from the spec: bit index of the framebuffer category. -/
def ILO_STATE_FRAMEBUFFER : Nat := 14

/-- Modelled from the spec: bit index of the compute-resource category. -/
def ILO_STATE_COMPUTE_RESOURCES : Nat := 15

/-- Modelled from the spec: bit index of the global-binding category. -/
def ILO_STATE_GLOBAL_BINDING : Nat := 16

/-- Modelled from the spec: bit index of the fragment-sampler category. -/
def ILO_STATE_FRAGMENT_SAMPLERS : Nat := 17

/-- Mask form of the vertex-shader dirty bit (`1 << ILO_STATE_VS`). -/
def ILO_DIRTY_VS : Nat := 2 ^ ILO_STATE_VS

/-- Mask form of the geometry-shader dirty bit. -/
def ILO_DIRTY_GS : Nat := 2 ^ ILO_STATE_GS

/-- Mask form of the fragment-shader dirty bit. -/
def ILO_DIRTY_FS : Nat := 2 ^ ILO_STATE_FS

/-- Mask form of the rasterizer dirty bit. -/
def ILO_DIRTY_RASTERIZER : Nat := 2 ^ ILO_STATE_RASTERIZER

/-- Mask form of the constant-buffer dirty bit. -/
def ILO_DIRTY_CONSTANT_BUFFER : Nat := 2 ^ ILO_STATE_CONSTANT_BUFFER

/-- Mask form of the index-buffer dirty bit. -/
def ILO_DIRTY_INDEX_BUFFER : Nat := 2 ^ ILO_STATE_INDEX_BUFFER

/-- Mask form of the vertex-buffer dirty bit. -/
def ILO_DIRTY_VERTEX_BUFFERS : Nat := 2 ^ ILO_STATE_VERTEX_BUFFERS

/-- Mask form of the viewport dirty bit. -/
def ILO_DIRTY_VIEWPORT : Nat := 2 ^ ILO_STATE_VIEWPORT

/-- Mask form of the stream-output-target dirty bit. -/
def ILO_DIRTY_STREAM_OUTPUT_TARGETS : Nat := 2 ^ ILO_STATE_STREAM_OUTPUT_TARGETS

/-- Mask form of the vertex-stage sampler-view dirty bit. -/
def ILO_DIRTY_VERTEX_SAMPLER_VIEWS : Nat := 2 ^ ILO_STATE_VERTEX_SAMPLER_VIEWS

/-- Mask form of the fragment-stage sampler-view dirty bit. -/
def ILO_DIRTY_FRAGMENT_SAMPLER_VIEWS : Nat := 2 ^ ILO_STATE_FRAGMENT_SAMPLER_VIEWS

/-- Mask form of the geometry-stage sampler-view dirty bit. -/
def ILO_DIRTY_GEOMETRY_SAMPLER_VIEWS : Nat := 2 ^ ILO_STATE_GEOMETRY_SAMPLER_VIEWS

/-- Mask form of the compute-stage sampler-view dirty bit. -/
def ILO_DIRTY_COMPUTE_SAMPLER_VIEWS : Nat := 2 ^ ILO_STATE_COMPUTE_SAMPLER_VIEWS

/-- Mask form of the shader-resource dirty bit. -/
def ILO_DIRTY_SHADER_RESOURCES : Nat := 2 ^ ILO_STATE_SHADER_RESOURCES

/-- Mask form of the framebuffer dirty bit. -/
def ILO_DIRTY_FRAMEBUFFER : Nat := 2 ^ ILO_STATE_FRAMEBUFFER

/-- Mask form of the compute-resource dirty bit. -/
def ILO_DIRTY_COMPUTE_RESOURCES : Nat := 2 ^ ILO_STATE_COMPUTE_RESOURCES

/-- Mask form of the global-binding dirty bit. -/
def ILO_DIRTY_GLOBAL_BINDING : Nat := 2 ^ ILO_STATE_GLOBAL_BINDING

/-- Mask form of the fragment-sampler dirty bit. -/
def ILO_DIRTY_FRAGMENT_SAMPLERS : Nat := 2 ^ ILO_STATE_FRAGMENT_SAMPLERS

/-- Modelled from the spec: `ILO_DIRTY_ALL` is the all-categories mask ("the
union of all dirty bits"; the flag word is 32 bits wide). -/
def ILO_DIRTY_ALL : Nat := 2 ^ 32 - 1

/-- Gallium constant `PIPE_BUFFER` (resource target denoting a buffer). -/
def PIPE_BUFFER : Nat := 0

/-- Gallium constant `PIPE_SHADER_VERTEX`. -/
def PIPE_SHADER_VERTEX : Nat := 0

/-- Gallium constant `PIPE_SHADER_FRAGMENT`. -/
def PIPE_SHADER_FRAGMENT : Nat := 1

/-- Gallium constant `PIPE_SHADER_GEOMETRY`. -/
def PIPE_SHADER_GEOMETRY : Nat := 2

/-- Gallium constant `PIPE_SHADER_COMPUTE`. -/
def PIPE_SHADER_COMPUTE : Nat := 3

/-- Gallium constant `PIPE_SHADER_TYPES`. -/
def PIPE_SHADER_TYPES : Nat := 4

/-- Mesa utility `util_last_bit`: one past the index of the highest set bit,
`0` for `0` (`while (u) { r++; u >>= 1 }`). -/
def util_last_bit (m : Nat) : Nat :=
  if m = 0 then 0 else util_last_bit (m / 2) + 1
decreasing_by exact Nat.div_lt_self (Nat.pos_of_ne_zero (by assumption)) (by omega)

/-- The trailing-trim loop `while (count > 0 && !cso[count - 1]) count--;`
of the sparse-update mode. -/
def slotTrim {α : Type} (slots : Nat → Option α) : Nat → Nat
  | 0 => 0
  | c + 1 => if (slots c).isSome then c + 1 else slotTrim slots c

/-- Generic slot-array update shared (line for line) by `bind_samplers` and
`set_sampler_views` in the source: `unbind_old = true` is the replace-range
mode (a null `handles` behaves as `start = 0, count = 0`; the prefix
`[0, start)` is cleared, `[start, start+count)` is overwritten from
`handles`, `[start+count, oldCount)` is cleared, and the occupancy count
becomes `start + count` with no trimming); `unbind_old = false` is the
sparse-update mode (only `[start, start+count)` is touched, then the count
either stays at `oldCount` or — when `oldCount <= start + count` — is
re-trimmed downward over trailing empty slots). `ilo_set_shader_resources`,
`ilo_set_compute_resources` and `ilo_set_global_binding` are the
sparse-update mode verbatim. -/
def bind_slots {α : Type} (slots : Nat → Option α) (oldCount : Nat)
    (start count : Nat) (handles : Option (Nat → Option α))
    (unbind_old : Bool) : (Nat → Option α) × Nat :=
  if unbind_old then
    match handles with
    | none =>
        (fun i => if i < oldCount then none else slots i, 0)
    | some hs =>
        (fun i =>
          if i < start then none
          else if i < start + count then hs (i - start)
          else if i < oldCount then none
          else slots i,
        start + count)
  else
    let slots2 : Nat → Option α := fun i =>
      if start ≤ i ∧ i < start + count then
        match handles with
        | some hs => hs (i - start)
        | none => none
      else slots i
    if oldCount ≤ start + count then
      (slots2, slotTrim slots2 (start + count))
    else
      (slots2, oldCount)

/-- The occupancy invariant of a slot binding category (spec section 3):
`count == 0` or slot `count - 1` is occupied, and no slot at index
`>= count` is occupied. -/
def slotInv {α : Type} (slots : Nat → Option α) (count : Nat) : Prop :=
  (count = 0 ∨ (slots (count - 1)).isSome = true) ∧
  ∀ i, count ≤ i → slots i = none

/-- A buffer view descriptor as built by the collaborator
`ilo_gpe_init_view_surface_for_buffer` (spec: a thin constructor); it records
the arguments the source passes: the backing buffer (`bo`), the byte offset,
the byte size and the element format. A cleared surface has `bo = none`
(the source writes `surface.bo = NULL`). -/
structure ViewSurface where
  bo : Option Nat
  offset : Nat
  size : Nat
  elemFormat : Nat
deriving DecidableEq

/-- Gallium format constant `PIPE_FORMAT_R32G32B32A32_FLOAT`, opaque id. -/
def PIPE_FORMAT_R32G32B32A32_FLOAT : Nat := 126

/-- Format helper `util_format_get_blocksize` for the only format this core
queries: a 4-component 32-bit-float element is 16 bytes. -/
def util_format_get_blocksize (fmt : Nat) : Nat :=
  if fmt = PIPE_FORMAT_R32G32B32A32_FLOAT then 16 else 1

/-- Thin constructor `ilo_gpe_init_view_surface_for_buffer` (external
collaborator; records its arguments). -/
def ilo_gpe_init_view_surface_for_buffer (buf offset size fmt : Nat) :
    ViewSurface :=
  { bo := some buf, offset := offset, size := size, elemFormat := fmt }

/-- One constant-buffer slot (`struct ilo_cbuf_cso`): a committed resource
reference with its view descriptor, or a pending client byte span
(`user_buffer`/`user_buffer_size`). -/
structure CbufCso where
  resource : Option Nat
  surface : ViewSurface
  user_buffer : Option Nat
  user_buffer_size : Nat
deriving DecidableEq

/-- One shader stage's constant-buffer bindings (`ilo->cbuf[sh]`). -/
structure CbufStage where
  cso : Nat → CbufCso
  enabled_mask : Nat
  count : Nat

/-- The upload collaborator `u_upload_data` (`stage` in the spec): given a
byte size and a client span (base id plus byte offset into it), it returns
the staged byte offset and the staged resource. The uploader itself is
external state; it is abstracted as a pure function parameter. -/
abbrev UploadData := Nat → Nat → Nat → Nat × Nat

/-- The upload collaborator `u_upload_buffer` (`stage_from_buffer` in the
spec): given a source byte offset, a byte size and the source buffer, it
returns the staged byte offset and the staged resource. -/
abbrev UploadBuffer := Nat → Nat → Option Nat → Nat × Nat

/-- Body of the `while (enabled_mask) { i = u_bit_scan(&enabled_mask); ... }`
loop of `finalize_constant_buffers` for one slot: a slot holding a pending
client span is staged through `u_upload_data`, a view descriptor is built
over the staged range (element format `PIPE_FORMAT_R32G32B32A32_FLOAT`, the
span's byte length as buffer size), and the pending span is cleared. -/
def finalize_cbuf_slot (uploadData : UploadData) (c : CbufCso) : CbufCso :=
  match c.user_buffer with
  | some ub =>
      let staged := uploadData c.user_buffer_size ub 0
      { resource := some staged.2,
        surface := ilo_gpe_init_view_surface_for_buffer staged.2 staged.1
          c.user_buffer_size PIPE_FORMAT_R32G32B32A32_FLOAT,
        user_buffer := none,
        user_buffer_size := 0 }
  | none => c

/-- One stage of `finalize_constant_buffers`: the `u_bit_scan` loop visits
exactly the set bits of `enabled_mask` in ascending order, and each
iteration touches only its own slot, so it is the pointwise update below;
afterwards `count = util_last_bit(enabled_mask)`. -/
def finalize_cbuf_stage (uploadData : UploadData) (st : CbufStage) :
    CbufStage :=
  { cso := fun i =>
      if st.enabled_mask.testBit i then finalize_cbuf_slot uploadData (st.cso i)
      else st.cso i,
    enabled_mask := st.enabled_mask,
    count := util_last_bit st.enabled_mask }

/-- Embedding of `finalize_constant_buffers`: skipped entirely unless the constant-buffer
dirty bit is set; otherwise every shader stage `0 <= sh < PIPE_SHADER_TYPES`
is processed. The stage array is a function; stages `>= PIPE_SHADER_TYPES`
do not exist in the source and are left untouched. -/
def finalize_constant_buffers (uploadData : UploadData) (dirty : Nat)
    (cbuf : Nat → CbufStage) : Nat → CbufStage :=
  if dirty &&& ILO_DIRTY_CONSTANT_BUFFER = 0 then cbuf
  else fun sh =>
    if sh < PIPE_SHADER_TYPES then finalize_cbuf_stage uploadData (cbuf sh)
    else cbuf sh

/-- The persistent index-buffer descriptor (`struct pipe_index_buffer`). -/
structure PipeIndexBuffer where
  buffer : Option Nat
  offset : Nat
  index_size : Nat
  user_buffer : Option Nat
deriving DecidableEq

/-- The driver's index-buffer binding (`ilo->ib`): the persistent descriptor
plus the resolved resource and resolved draw-start offset in elements
(signed; the source comments that it "could be negative"). -/
structure IloIb where
  state : PipeIndexBuffer
  resource : Option Nat
  draw_start_offset : Int
deriving DecidableEq

/-- Ephemeral per-draw parameters (`struct pipe_draw_info`, the fields this
core reads). -/
structure DrawInfo where
  indexed : Bool
  start : Nat
  count : Nat
deriving DecidableEq

/-- A staging request issued to the upload collaborator, recorded so that
theorems can speak about what was staged: `data size srcSpan srcOffset` is a
`u_upload_data` call, `buffer srcOffset size srcBuf` a `u_upload_buffer`
call. -/
inductive UploadCall where
  | data (size : Nat) (srcSpan : Nat) (srcOffset : Nat)
  | buffer (srcOffset : Nat) (size : Nat) (srcBuf : Option Nat)
deriving DecidableEq

/-- Embedding of `finalize_index_buffer`: nothing happens for a non-indexed draw.  For an
indexed draw, the byte window is `offset = index_size * draw->start`,
`size = index_size * draw->count`; a pending client span is staged with
`u_upload_data(size, user_buffer + offset)`; otherwise, when the bound byte
offset is misaligned (`offset % index_size != 0`), the window is staged with
`u_upload_buffer(state.offset + offset, size, state.buffer)`.  In either
staged case the resolved resource becomes the staged output, the resolved
start is the returned byte offset divided by the element size minus
`draw->start`, and the index-buffer dirty bit is raised.  The returned list
records the staging requests issued. -/
def finalize_index_buffer (uploadData : UploadData)
    (uploadBuffer : UploadBuffer) (draw : DrawInfo) (ib : IloIb)
    (dirty : Nat) : IloIb × Nat × List UploadCall :=
  if draw.indexed = false then (ib, dirty, [])
  else
    let offset := ib.state.index_size * draw.start
    let size := ib.state.index_size * draw.count
    match ib.state.user_buffer with
    | some ub =>
        let staged := uploadData size ub offset
        ({ ib with
            resource := some staged.2,
            draw_start_offset :=
              (staged.1 / ib.state.index_size : Nat) - (draw.start : Int) },
          dirty ||| ILO_DIRTY_INDEX_BUFFER,
          [UploadCall.data size ub offset])
    | none =>
        if ib.state.offset % ib.state.index_size ≠ 0 then
          let staged := uploadBuffer (ib.state.offset + offset) size
            ib.state.buffer
          ({ ib with
              resource := some staged.2,
              draw_start_offset :=
                (staged.1 / ib.state.index_size : Nat) - (draw.start : Int) },
            dirty ||| ILO_DIRTY_INDEX_BUFFER,
            [UploadCall.buffer (ib.state.offset + offset) size
              ib.state.buffer])
        else (ib, dirty, [])

/-- The constant-buffer descriptor supplied by `ilo_set_constant_buffer`'s
caller (`struct pipe_constant_buffer`). -/
structure PipeConstantBuffer where
  buffer : Option Nat
  buffer_offset : Nat
  buffer_size : Nat
  user_buffer : Option Nat
deriving DecidableEq

/-- Mask of a 32-bit word, used for the C expression `~(1 << index)` on an
`unsigned`. -/
def UINT32_MASK : Nat := 2 ^ 32 - 1

/-- Embedding of `ilo_set_constant_buffer` for one shader stage's binding set: a non-null
descriptor installs either a device resource (building its view descriptor)
or a pending client span, and sets the slot's enabled bit; a null descriptor
clears the slot and its enabled bit.  The constant-buffer dirty bit is
raised unconditionally. -/
def ilo_set_constant_buffer (index : Nat)
    (state : Option PipeConstantBuffer) (st : CbufStage) (dirty : Nat) :
    CbufStage × Nat :=
  match state with
  | some s =>
      let cbuf : CbufCso :=
        match s.buffer with
        | some b =>
            { resource := some b,
              surface := ilo_gpe_init_view_surface_for_buffer b
                s.buffer_offset s.buffer_size PIPE_FORMAT_R32G32B32A32_FLOAT,
              user_buffer := none,
              user_buffer_size := 0 }
        | none =>
            { resource := none,
              surface := { (st.cso index).surface with bo := none },
              user_buffer := s.user_buffer,
              user_buffer_size := s.buffer_size }
      ({ st with
          cso := fun i => if i = index then cbuf else st.cso i,
          enabled_mask := st.enabled_mask ||| 2 ^ index },
        dirty ||| ILO_DIRTY_CONSTANT_BUFFER)
  | none =>
      let cbuf : CbufCso :=
        { resource := none,
          surface := { (st.cso index).surface with bo := none },
          user_buffer := none,
          user_buffer_size := 0 }
      ({ st with
          cso := fun i => if i = index then cbuf else st.cso i,
          enabled_mask := st.enabled_mask &&& (UINT32_MASK ^^^ 2 ^ index) },
        dirty ||| ILO_DIRTY_CONSTANT_BUFFER)

/-- The driver's viewport state (`ilo->viewport`): processed per-slot
descriptors (opaque ids produced by the `ilo_gpe_set_viewport_cso`
collaborator), the saved viewport 0 (kept for `util_blitter`), and the
count. -/
structure ViewportInfo where
  cso : Nat → Nat
  viewport0 : Nat
  count : Nat

/-- Embedding of `ilo_set_viewport_states`: with a non-null array, slots
`[start_slot, start_slot + num_viewports)` are rewritten through the
`ilo_gpe_set_viewport_cso` collaborator (abstracted as `mkCso`), the count
grows to `start_slot + num_viewports` if that exceeds it, and viewport 0 is
saved when slot 0 is written; with a null array, the count shrinks to
`start_slot` exactly when `count <= start_slot + num_viewports` and
`count > start_slot`.  The viewport dirty bit is raised unconditionally. -/
def ilo_set_viewport_states (mkCso : Nat → Nat) (start_slot num_viewports : Nat)
    (viewports : Option (Nat → Nat)) (vp : ViewportInfo) (dirty : Nat) :
    ViewportInfo × Nat :=
  match viewports with
  | some vs =>
      let cso2 : Nat → Nat := fun i =>
        if start_slot ≤ i ∧ i < start_slot + num_viewports then
          mkCso (vs (i - start_slot))
        else vp.cso i
      let count2 :=
        if vp.count < start_slot + num_viewports then
          start_slot + num_viewports
        else vp.count
      let vp0 :=
        if start_slot = 0 ∧ num_viewports ≠ 0 then vs 0 else vp.viewport0
      ({ cso := cso2, viewport0 := vp0, count := count2 },
        dirty ||| ILO_DIRTY_VIEWPORT)
  | none =>
      let count2 :=
        if vp.count ≤ start_slot + num_viewports ∧ start_slot < vp.count then
          start_slot
        else vp.count
      ({ vp with count := count2 }, dirty ||| ILO_DIRTY_VIEWPORT)

/-- Embedding of `ilo_set_index_buffer`: a non-null descriptor copies the buffer
reference, offset, element size and pending client span, seeds the resolved
resource with the bound buffer and the resolved start with
`offset / index_size` (finalization fixes these up when the buffer is
missing or the offset misaligned); a null descriptor resets every field.
The index-buffer dirty bit is raised unconditionally. -/
def ilo_set_index_buffer (state : Option PipeIndexBuffer) (ib : IloIb)
    (dirty : Nat) : IloIb × Nat :=
  match state with
  | some s =>
      let st2 : PipeIndexBuffer :=
        { buffer := s.buffer, offset := s.offset,
          index_size := s.index_size, user_buffer := s.user_buffer }
      ({ state := st2, resource := s.buffer,
          draw_start_offset := (s.offset / s.index_size : Nat) },
        dirty ||| ILO_DIRTY_INDEX_BUFFER)
  | none =>
      let st2 : PipeIndexBuffer :=
        { buffer := none, offset := 0, index_size := 0, user_buffer := none }
      ({ state := st2, resource := none, draw_start_offset := 0 },
        dirty ||| ILO_DIRTY_INDEX_BUFFER)

/-- The context slice finalize_shader_states reads and writes: the dirty
word, the three bound graphics shaders (`ilo->vs/gs/fs`, opaque ids) and the
bound rasterizer state (opaque id). -/
structure ShaderCtx where
  dirty : Nat
  vs : Option Nat
  gs : Option Nat
  fs : Option Nat
  rasterizer : Nat

/-- The kernel-selection collaborator `ilo_shader_select_kernel(shader, ilo,
dirty_mask)`: returns whether a different kernel was selected.  Abstracted
as a pure function of the shader and the mask it is invoked against. -/
abbrev SelectKernel := Nat → Nat → Bool

/-- The attribute-routing collaborator `ilo_shader_select_kernel_routing
(shader, upstream_shader, rasterizer)`: returns whether the routing
changed. -/
abbrev SelectRouting := Nat → Option Nat → Nat → Bool

/-- A call issued to the kernel-selection collaborator, recorded so that
theorems can speak about the mask a selection was invoked against. -/
inductive SelCall where
  | kernel (shader : Nat) (mask : Nat)
  | routing (shader : Nat) (upstream : Option Nat) (rasterizer : Nat)
deriving DecidableEq

/-- One iteration of the `for (type = 0; type < PIPE_SHADER_TYPES; type++)`
loop of `finalize_shader_states`: the switch picks the stage's shader and
dirty mask (the default arm yields no shader, so the compute iteration is a
no-op); an unbound stage is skipped; a stage whose own bit is dirty has its
kernel selected against `ILO_DIRTY_ALL` (result ignored), otherwise the
kernel is selected against the current dirty bits and the stage's bit is
raised if a new kernel was selected; for the fragment stage, when the
FS/GS/VS/rasterizer bits are dirty the routing is additionally resolved
against the active upstream shader (`gs` if bound, else `vs`) and the
rasterizer, raising the FS bit if it changed. -/
def finalize_shader_type (selK : SelectKernel) (selR : SelectRouting)
    (typ : Nat) (ilo : ShaderCtx) : ShaderCtx × List SelCall :=
  let pick : Option Nat × Nat :=
    if typ = PIPE_SHADER_VERTEX then (ilo.vs, ILO_DIRTY_VS)
    else if typ = PIPE_SHADER_GEOMETRY then (ilo.gs, ILO_DIRTY_GS)
    else if typ = PIPE_SHADER_FRAGMENT then (ilo.fs, ILO_DIRTY_FS)
    else (none, 0)
  match pick with
  | (none, _) => (ilo, [])
  | (some sh, state) =>
    let step1 : ShaderCtx × List SelCall :=
      if ilo.dirty &&& state ≠ 0 then
        (ilo, [SelCall.kernel sh ILO_DIRTY_ALL])
      else if selK sh ilo.dirty then
        ({ ilo with dirty := ilo.dirty ||| state },
          [SelCall.kernel sh ilo.dirty])
      else
        (ilo, [SelCall.kernel sh ilo.dirty])
    let ilo1 := step1.1
    if typ = PIPE_SHADER_FRAGMENT ∧
        ilo1.dirty &&&
          (state ||| ILO_DIRTY_GS ||| ILO_DIRTY_VS ||| ILO_DIRTY_RASTERIZER)
          ≠ 0 then
      let upstream := if ilo1.gs.isSome then ilo1.gs else ilo1.vs
      if selR sh upstream ilo1.rasterizer then
        ({ ilo1 with dirty := ilo1.dirty ||| state },
          step1.2 ++ [SelCall.routing sh upstream ilo1.rasterizer])
      else
        (ilo1, step1.2 ++ [SelCall.routing sh upstream ilo1.rasterizer])
    else
      (ilo1, step1.2)

/-- Embedding of `finalize_shader_states`: the loop over the `PIPE_SHADER_TYPES = 4`
stage indices, unrolled (the order is vertex, fragment, geometry, and the
compute iteration is a no-op). -/
def finalize_shader_states (selK : SelectKernel) (selR : SelectRouting)
    (ilo : ShaderCtx) : ShaderCtx × List SelCall :=
  let p0 := finalize_shader_type selK selR 0 ilo
  let p1 := finalize_shader_type selK selR 1 p0.1
  let p2 := finalize_shader_type selK selR 2 p1.1
  let p3 := finalize_shader_type selK selR 3 p2.1
  (p3.1, p0.2 ++ p1.2 ++ p2.2 ++ p3.2)

/-- Embedding of `ilo_init_states`: the dirty word a context starts with (`ilo->dirty =
ILO_DIRTY_ALL`; the scissor and null depth-stencil initialisation only touch
collaborator-built descriptors). -/
def ilo_init_states : Nat := ILO_DIRTY_ALL

/-- The resource handle passed to `ilo_mark_states_with_resource_dirty`: its
pointer identity (`id`, which the stored bindings are compared against) and
its `target` field. -/
structure PipeResource where
  id : Nat
  target : Nat
deriving DecidableEq

/-- Bounded existential scan: `anyRange n p` is true when some `i < n`
satisfies `p`.  The source's scan-and-break loops (including the
`u_bit_scan` loops, which visit the set bits of a 32-bit mask in ascending
order) accumulate into a bitmask, so breaking out early is observationally
this bounded search. -/
def anyRange (n : Nat) (p : Nat → Bool) : Bool :=
  (List.range n).any p

/-- The compute-resource scan of `ilo_mark_states_with_resource_dirty`,
translated with its statement order preserved: each iteration first releases
the slot (`pipe_surface_reference(&states[i], NULL)`, which nulls it) and
only then compares the slot's texture against the changed resource.  A slot
is the texture id of the surface it holds; the comparison against the
just-nulled slot reads a null pointer (undefined behaviour in C; modelled
as a comparison that cannot match).  Returns the mutated slots and whether
the loop matched. -/
def cs_resource_scan (slots : Nat → Option Nat) (resId : Nat) :
    Nat → Nat → (Nat → Option Nat) × Bool
  | _, 0 => (slots, false)
  | i, n + 1 =>
      let slots2 : Nat → Option Nat := fun j => if j = i then none else slots j
      if slots2 i = some resId then (slots2, true)
      else cs_resource_scan slots2 resId (i + 1) n

/-- The context slice `ilo_mark_states_with_resource_dirty` reads (and, in
the compute-resource scan, writes).  View slots hold the view's underlying
texture id (`view->texture`), surface-shaped slots likewise
(`states[i]->texture`), buffer-shaped slots the buffer id; `none` is a null
slot. -/
structure MarkCtx where
  dirty : Nat
  vbEnabledMask : Nat
  vbBuffer : Nat → Option Nat
  ibStateBuffer : Option Nat
  soCount : Nat
  soBuffer : Nat → Option Nat
  viewCount : Nat → Nat
  viewTexture : Nat → Nat → Option Nat
  cbufResource : Nat → Nat → Option Nat
  resourceCount : Nat
  resourceTexture : Nat → Option Nat
  fbNrCbufs : Nat
  fbCbufTexture : Nat → Option Nat
  fbZsbufTexture : Option Nat
  csResourceCount : Nat
  csResourceTexture : Nat → Option Nat
  globalCount : Nat
  globalResource : Nat → Option Nat

/-- Modelled from the spec: the constant-buffer slot capacity
(`Elements(ilo->cbuf[sh].cso)`, `ILO_MAX_CONST_BUFFERS` in the missing
context header); the enabled mask is a 32-bit word, so 32 bounds it, and no
claim depends on the exact value. -/
def ILO_MAX_CONST_BUFFERS : Nat := 32

/-- The per-stage sampler-view dirty bits table `view_dirty_bits` of
`ilo_mark_states_with_resource_dirty`. -/
def view_dirty_bits (sh : Nat) : Nat :=
  if sh = PIPE_SHADER_VERTEX then ILO_DIRTY_VERTEX_SAMPLER_VIEWS
  else if sh = PIPE_SHADER_FRAGMENT then ILO_DIRTY_FRAGMENT_SAMPLER_VIEWS
  else if sh = PIPE_SHADER_GEOMETRY then ILO_DIRTY_GEOMETRY_SAMPLER_VIEWS
  else if sh = PIPE_SHADER_COMPUTE then ILO_DIRTY_COMPUTE_SAMPLER_VIEWS
  else 0

/-- One iteration of the per-stage loop of
`ilo_mark_states_with_resource_dirty`: the sampler-view scan (by underlying
texture) and, for buffer-typed resources, the constant-buffer scan over the
whole slot capacity. -/
def mark_stage_states (c : MarkCtx) (res : PipeResource) (sh : Nat)
    (states : Nat) : Nat :=
  let states1 :=
    if anyRange (c.viewCount sh) (fun i => c.viewTexture sh i == some res.id)
    then states ||| view_dirty_bits sh
    else states
  if res.target = PIPE_BUFFER ∧
      anyRange ILO_MAX_CONST_BUFFERS
        (fun i => c.cbufResource sh i == some res.id) then
    states1 ||| ILO_DIRTY_CONSTANT_BUFFER
  else states1

/-- The `states` bitmask `ilo_mark_states_with_resource_dirty` accumulates,
together with the compute-resource slots as mutated by its scan.  The scans
appear in the source's order: vertex buffers, index buffer and stream-output
targets (buffer-typed only), then per stage the sampler views and constant
buffers, then the shader resources, the framebuffer attachments (non-buffer
only), the compute resources (the release-before-compare loop) and the
global bindings. -/
def mark_states_value (c : MarkCtx) (res : PipeResource) :
    Nat × (Nat → Option Nat) :=
  let s0 : Nat := 0
  let s1 :=
    if res.target = PIPE_BUFFER ∧
        anyRange 32 (fun idx =>
          c.vbEnabledMask.testBit idx && (c.vbBuffer idx == some res.id)) then
      s0 ||| ILO_DIRTY_VERTEX_BUFFERS
    else s0
  let s2 :=
    if res.target = PIPE_BUFFER ∧ c.ibStateBuffer = some res.id then
      s1 ||| ILO_DIRTY_INDEX_BUFFER
    else s1
  let s3 :=
    if res.target = PIPE_BUFFER ∧
        anyRange c.soCount (fun i => c.soBuffer i == some res.id) then
      s2 ||| ILO_DIRTY_STREAM_OUTPUT_TARGETS
    else s2
  let s4 := mark_stage_states c res 0 s3
  let s5 := mark_stage_states c res 1 s4
  let s6 := mark_stage_states c res 2 s5
  let s7 := mark_stage_states c res 3 s6
  let s8 :=
    if anyRange c.resourceCount
        (fun i => c.resourceTexture i == some res.id) then
      s7 ||| ILO_DIRTY_SHADER_RESOURCES
    else s7
  let s9 :=
    if res.target ≠ PIPE_BUFFER ∧
        anyRange c.fbNrCbufs (fun i => c.fbCbufTexture i == some res.id) then
      s8 ||| ILO_DIRTY_FRAMEBUFFER
    else s8
  let s10 :=
    if res.target ≠ PIPE_BUFFER ∧ c.fbZsbufTexture = some res.id then
      s9 ||| ILO_DIRTY_FRAMEBUFFER
    else s9
  let csScan := cs_resource_scan c.csResourceTexture res.id 0 c.csResourceCount
  let s11 :=
    if csScan.2 then s10 ||| ILO_DIRTY_COMPUTE_RESOURCES else s10
  let s12 :=
    if anyRange c.globalCount (fun i => c.globalResource i == some res.id) then
      s11 ||| ILO_DIRTY_GLOBAL_BINDING
    else s11
  (s12, csScan.1)

/-- Embedding of `ilo_mark_states_with_resource_dirty`: ORs the accumulated `states` mask
into the dirty word (and carries the compute-resource slots its scan
mutated). -/
def ilo_mark_states_with_resource_dirty (c : MarkCtx) (res : PipeResource) :
    MarkCtx :=
  let v := mark_states_value c res
  { c with dirty := c.dirty ||| v.1, csResourceTexture := v.2 }

/-- Modelled from the spec: bit index of the blend category. -/
def ILO_STATE_BLEND : Nat := 18

/-- Mask form of the blend dirty bit. -/
def ILO_DIRTY_BLEND : Nat := 2 ^ ILO_STATE_BLEND

/-- Embedding of `ilo_bind_blend_state`: installs the blend descriptor and raises the
blend dirty bit unconditionally. -/
def ilo_bind_blend_state (state : Nat) (_blend : Nat) (dirty : Nat) :
    Nat × Nat :=
  (state, dirty ||| ILO_DIRTY_BLEND)

/-- Embedding of `ilo_bind_fs_state`: installs the fragment shader and raises the FS
dirty bit unconditionally. -/
def ilo_bind_fs_state (state : Option Nat) (ilo : ShaderCtx) : ShaderCtx :=
  { ilo with fs := state, dirty := ilo.dirty ||| ILO_DIRTY_FS }

/-- Embedding of `ilo_bind_fragment_sampler_states`: the replace-range slot update
(`bind_samplers(..., 0, num_samplers, samplers, true)`) followed by an
unconditional raise of the fragment-sampler dirty bit. -/
def ilo_bind_fragment_sampler_states (num_samplers : Nat)
    (samplers : Option (Nat → Option Nat)) (slots : Nat → Option Nat)
    (count dirty : Nat) : ((Nat → Option Nat) × Nat) × Nat :=
  (bind_slots slots count 0 num_samplers samplers true,
    dirty ||| ILO_DIRTY_FRAGMENT_SAMPLERS)

/-- Embedding of `ilo_set_shader_resources`: the sparse-update slot update followed by an
unconditional raise of the shader-resource dirty bit. -/
def ilo_set_shader_resources (start count : Nat)
    (surfaces : Option (Nat → Option Nat)) (slots : Nat → Option Nat)
    (oldCount dirty : Nat) : ((Nat → Option Nat) × Nat) × Nat :=
  (bind_slots slots oldCount start count surfaces false,
    dirty ||| ILO_DIRTY_SHADER_RESOURCES)

/-- Embedding of `ilo_set_compute_resources`: the sparse-update slot update followed by
an unconditional raise of the compute-resource dirty bit. -/
def ilo_set_compute_resources (start count : Nat)
    (surfaces : Option (Nat → Option Nat)) (slots : Nat → Option Nat)
    (oldCount dirty : Nat) : ((Nat → Option Nat) × Nat) × Nat :=
  (bind_slots slots oldCount start count surfaces false,
    dirty ||| ILO_DIRTY_COMPUTE_RESOURCES)

/-- Embedding of `ilo_set_global_binding`: the sparse-update slot update followed by an
unconditional raise of the global-binding dirty bit. -/
def ilo_set_global_binding (start count : Nat)
    (resources : Option (Nat → Option Nat)) (slots : Nat → Option Nat)
    (oldCount dirty : Nat) : ((Nat → Option Nat) × Nat) × Nat :=
  (bind_slots slots oldCount start count resources false,
    dirty ||| ILO_DIRTY_GLOBAL_BINDING)

/-- The context slice `ilo_finalize_3d_states` touches. -/
structure FinalizeCtx where
  sh : ShaderCtx
  cbuf : Nat → CbufStage
  ib : IloIb

/-- Embedding of `ilo_finalize_3d_states`: installs the draw parameters and runs the
three resolution phases in order — shader resolution, constant-buffer
resolution, index-buffer resolution — then unmaps the uploader (an external
effect).  Returns the new context and the collaborator calls issued. -/
def ilo_finalize_3d_states (selK : SelectKernel) (selR : SelectRouting)
    (uploadData : UploadData) (uploadBuffer : UploadBuffer)
    (c : FinalizeCtx) (draw : DrawInfo) :
    FinalizeCtx × List SelCall × List UploadCall :=
  let p := finalize_shader_states selK selR c.sh
  let cbuf2 := finalize_constant_buffers uploadData p.1.dirty c.cbuf
  let q := finalize_index_buffer uploadData uploadBuffer draw c.ib p.1.dirty
  ({ sh := { p.1 with dirty := q.2.1 }, cbuf := cbuf2, ib := q.1 },
    p.2, q.2.2)

/-- Rendering of the claim (C1) that a misaligned device-backed index buffer
is restaged in full, "from its base offset": the single staging request
issued would have to read from the buffer's bound base offset
(`ib.state.offset`), independently of the draw's start.  Written from the
claim's words, to be compared against what `finalize_index_buffer`
actually issues. -/
def stages_whole_buffer_from_base (ib : IloIb) (calls : List UploadCall) :
    Prop :=
  ∃ size, calls = [UploadCall.buffer ib.state.offset size ib.state.buffer]

/-- A dirty word meets a single-bit mask exactly when it has that bit. -/
theorem and_two_pow_ne_zero_iff (d k : Nat) :
    d &&& 2 ^ k ≠ 0 ↔ d.testBit k = true := by
  constructor
  · intro h
    by_contra hb
    apply h
    apply Nat.zero_of_testBit_eq_false
    intro i
    rw [Nat.testBit_and, Nat.testBit_two_pow]
    by_cases hik : k = i
    · subst hik
      simp [Bool.not_eq_true] at hb
      simp [hb]
    · simp [hik]
  · intro h hz
    have h2 := congrArg (fun x => Nat.testBit x k) hz
    simp [Nat.testBit_and, Nat.testBit_two_pow, h] at h2

/-- Raising further bits never clears an intersection. -/
theorem or_preserve_and_ne (a b m : Nat) (h : a &&& m ≠ 0) :
    (a ||| b) &&& m ≠ 0 := by
  intro hz
  apply h
  apply Nat.zero_of_testBit_eq_false
  intro i
  have h2 := congrArg (fun x => Nat.testBit x i) hz
  simp only [Nat.testBit_and, Nat.testBit_or, Nat.zero_testBit] at h2 ⊢
  cases ha : a.testBit i <;> cases hm : m.testBit i <;> simp_all

/-- One OR step is monotone on the bit set. -/
theorem or_step_mono (a b : Nat) : a ||| (a ||| b) = a ||| b := by
  rw [← Nat.or_assoc, Nat.or_self]

/-- Bit-set inclusion (`a ||| b = b`) is transitive along updates. -/
theorem or_mono_trans (a b c : Nat) (h1 : a ||| b = b) (h2 : b ||| c = c) :
    a ||| c = c := by
  calc a ||| c = a ||| (b ||| c) := by rw [h2]
    _ = (a ||| b) ||| c := by rw [Nat.or_assoc]
    _ = b ||| c := by rw [h1]
    _ = c := h2

/-- ORing a foreign single-bit mask does not change another bit. -/
theorem testBit_or_two_pow_ne (s j k : Nat) (h : j ≠ k) :
    (s ||| 2 ^ j).testBit k = s.testBit k := by
  rw [Nat.testBit_or, Nat.testBit_two_pow]
  simp [h]

/-- ORing a single-bit mask sets that bit. -/
theorem testBit_or_two_pow_self (s j : Nat) :
    (s ||| 2 ^ j).testBit j = true := by
  rw [Nat.testBit_or, Nat.testBit_two_pow]
  simp

/-- C10: setting the index buffer with a null descriptor resets the whole
binding in one call — buffer reference released to null, offset and element
size zeroed, pending client span cleared, resolved resource released to
null, resolved draw-start offset zeroed — and raises the index-buffer dirty
bit. -/
theorem set_index_buffer_null_resets (ib : IloIb) (dirty : Nat) :
    (ilo_set_index_buffer none ib dirty).1.state.buffer = none ∧
    (ilo_set_index_buffer none ib dirty).1.state.offset = 0 ∧
    (ilo_set_index_buffer none ib dirty).1.state.index_size = 0 ∧
    (ilo_set_index_buffer none ib dirty).1.state.user_buffer = none ∧
    (ilo_set_index_buffer none ib dirty).1.resource = none ∧
    (ilo_set_index_buffer none ib dirty).1.draw_start_offset = 0 ∧
    (ilo_set_index_buffer none ib dirty).2 &&& ILO_DIRTY_INDEX_BUFFER ≠ 0 := by
  refine ⟨rfl, rfl, rfl, rfl, rfl, rfl, ?_⟩
  show (dirty ||| ILO_DIRTY_INDEX_BUFFER) &&& ILO_DIRTY_INDEX_BUFFER ≠ 0
  rw [ILO_DIRTY_INDEX_BUFFER, and_two_pow_ne_zero_iff]
  exact testBit_or_two_pow_self dirty ILO_STATE_INDEX_BUFFER

/-- C9: with a null viewport array the count shrinks to `start_slot` exactly
when the current count is greater than `start_slot` and at most
`start_slot + num_viewports`, and is otherwise unchanged; with a non-null
array the count grows to `start_slot + num_viewports` when that exceeds the
current count and never shrinks; the viewport dirty bit is raised in both
cases. -/
theorem set_viewport_states_count (mkCso : Nat → Nat) (start num : Nat)
    (vs : Nat → Nat) (vp : ViewportInfo) (dirty : Nat) :
    ((start < vp.count ∧ vp.count ≤ start + num →
        (ilo_set_viewport_states mkCso start num none vp dirty).1.count
          = start) ∧
      (¬ (start < vp.count ∧ vp.count ≤ start + num) →
        (ilo_set_viewport_states mkCso start num none vp dirty).1.count
          = vp.count) ∧
      (ilo_set_viewport_states mkCso start num none vp dirty).2 &&&
        ILO_DIRTY_VIEWPORT ≠ 0) ∧
    ((vp.count < start + num →
        (ilo_set_viewport_states mkCso start num (some vs) vp dirty).1.count
          = start + num) ∧
      vp.count ≤
        (ilo_set_viewport_states mkCso start num (some vs) vp dirty).1.count ∧
      (ilo_set_viewport_states mkCso start num (some vs) vp dirty).2 &&&
        ILO_DIRTY_VIEWPORT ≠ 0) := by
  have hbit : (dirty ||| ILO_DIRTY_VIEWPORT) &&& ILO_DIRTY_VIEWPORT ≠ 0 := by
    rw [ILO_DIRTY_VIEWPORT, and_two_pow_ne_zero_iff]
    exact testBit_or_two_pow_self dirty ILO_STATE_VIEWPORT
  refine ⟨⟨?_, ?_, hbit⟩, ?_, ?_, hbit⟩
  · intro h
    simp only [ilo_set_viewport_states]
    rw [if_pos ⟨h.2, h.1⟩]
  · intro h
    simp only [ilo_set_viewport_states]
    rw [if_neg (fun hc => h ⟨hc.2, hc.1⟩)]
  · intro h
    simp only [ilo_set_viewport_states]
    rw [if_pos h]
  · simp only [ilo_set_viewport_states]
    split
    · omega
    · omega

/-- C5: when the finalizer restages a misaligned device-backed index buffer,
the resolved draw-start offset (in elements) equals the byte offset returned
by the upload collaborator divided by the index element size, minus the
draw's own start index (an `Int`, so possibly negative), and it satisfies
`resolved_start + draw.start = staged byte offset / element size`. -/
theorem finalize_ib_resolved_start (uploadData : UploadData)
    (uploadBuffer : UploadBuffer) (draw : DrawInfo) (ib : IloIb) (dirty : Nat)
    (hidx : draw.indexed = true) (hub : ib.state.user_buffer = none)
    (hmis : ib.state.offset % ib.state.index_size ≠ 0) :
    (finalize_index_buffer uploadData uploadBuffer draw ib
        dirty).1.draw_start_offset =
      (((uploadBuffer (ib.state.offset + ib.state.index_size * draw.start)
          (ib.state.index_size * draw.count) ib.state.buffer).1 /
        ib.state.index_size : Nat) : Int) - (draw.start : Int) ∧
    (finalize_index_buffer uploadData uploadBuffer draw ib
        dirty).1.draw_start_offset + (draw.start : Int) =
      (((uploadBuffer (ib.state.offset + ib.state.index_size * draw.start)
          (ib.state.index_size * draw.count) ib.state.buffer).1 /
        ib.state.index_size : Nat) : Int) := by
  simp only [finalize_index_buffer, hidx, hub, if_pos hmis,
    Bool.true_eq_false, if_false]
  refine ⟨by trivial, by omega⟩

/-- Closed witness for `finalize_ib_resolved_start`: index size 4, bound
offset 3 (misaligned), draw start 10 and count 5, with a staging collaborator
that returns byte offset 8; the resolved start is `8/4 - 10 = -8`. -/
theorem finalize_ib_resolved_start_witness :
    ((⟨true, 10, 5⟩ : DrawInfo).indexed = true ∧
      (⟨⟨some 1, 3, 4, none⟩, some 1, 0⟩ : IloIb).state.user_buffer = none ∧
      (⟨⟨some 1, 3, 4, none⟩, some 1, 0⟩ : IloIb).state.offset %
        (⟨⟨some 1, 3, 4, none⟩, some 1, 0⟩ : IloIb).state.index_size ≠ 0) ∧
    (finalize_index_buffer (fun _ _ _ => (0, 0)) (fun _ _ _ => (8, 2))
        ⟨true, 10, 5⟩ ⟨⟨some 1, 3, 4, none⟩, some 1, 0⟩
        0).1.draw_start_offset =
      ((((fun (_ _ : Nat) (_ : Option Nat) => ((8 : Nat), (2 : Nat)))
          ((⟨⟨some 1, 3, 4, none⟩, some 1, 0⟩ : IloIb).state.offset +
            (⟨⟨some 1, 3, 4, none⟩, some 1, 0⟩ : IloIb).state.index_size * 10)
          ((⟨⟨some 1, 3, 4, none⟩, some 1, 0⟩ : IloIb).state.index_size * 5)
          (⟨⟨some 1, 3, 4, none⟩, some 1, 0⟩ : IloIb).state.buffer).1 /
        (⟨⟨some 1, 3, 4, none⟩, some 1, 0⟩ : IloIb).state.index_size :
          Nat) : Int) - ((10 : Nat) : Int) := by
  refine ⟨⟨rfl, rfl, by decide⟩, ?_⟩
  exact (finalize_ib_resolved_start (fun _ _ _ => (0, 0))
    (fun _ _ _ => (8, 2)) ⟨true, 10, 5⟩ ⟨⟨some 1, 3, 4, none⟩, some 1, 0⟩ 0
    rfl rfl (by decide)).1

/-- C1 (counterexample): at the claim's own scenario — bound offset 3,
element size 4 (misaligned), indexed draw with start 10 and count 5 — the
finalizer issues exactly one `u_upload_buffer` request, reading 20 bytes
(the draw window `index_size * count`) from source offset 43
(`offset + index_size * start`), not the entire logical buffer from its base
offset 3: the staging request the claim describes is not the one issued. -/
theorem finalize_ib_full_restage_counterexample :
    (finalize_index_buffer (fun _ _ _ => (0, 0)) (fun _ _ _ => (0, 2))
        ⟨true, 10, 5⟩ ⟨⟨some 1, 3, 4, none⟩, some 1, 0⟩ 0).2.2 =
      [UploadCall.buffer 43 20 (some 1)] ∧
    ¬ stages_whole_buffer_from_base ⟨⟨some 1, 3, 4, none⟩, some 1, 0⟩
      (finalize_index_buffer (fun _ _ _ => (0, 0)) (fun _ _ _ => (0, 2))
        ⟨true, 10, 5⟩ ⟨⟨some 1, 3, 4, none⟩, some 1, 0⟩ 0).2.2 := by
  refine ⟨rfl, ?_⟩
  rintro ⟨size, h⟩
  have h2 : UploadCall.buffer 43 20 (some 1) =
      UploadCall.buffer 3 size (some 1) := by
    have h0 : (finalize_index_buffer (fun _ _ _ => (0, 0))
        (fun _ _ _ => (0, 2)) ⟨true, 10, 5⟩
        ⟨⟨some 1, 3, 4, none⟩, some 1, 0⟩ 0).2.2 =
      [UploadCall.buffer 43 20 (some 1)] := rfl
    rw [h0] at h
    exact List.head_eq_of_cons_eq h
  cases h2

/-- C1 (amended): during per-draw finalization of an indexed draw whose
index buffer is device-backed (no pending client span) and whose bound byte
offset is not a multiple of the index element size, the finalizer stages the
draw's byte window of the bound buffer — source offset
`state.offset + index_size * draw.start`, size `index_size * draw.count`
(a windowed stage beginning at the misaligned byte position, not a
full-buffer restage) — through the upload collaborator, and raises the
index-buffer dirty bit. -/
theorem finalize_ib_misaligned_window_stage (uploadData : UploadData)
    (uploadBuffer : UploadBuffer) (draw : DrawInfo) (ib : IloIb) (dirty : Nat)
    (hidx : draw.indexed = true) (hub : ib.state.user_buffer = none)
    (hmis : ib.state.offset % ib.state.index_size ≠ 0) :
    (finalize_index_buffer uploadData uploadBuffer draw ib dirty).2.2 =
      [UploadCall.buffer (ib.state.offset + ib.state.index_size * draw.start)
        (ib.state.index_size * draw.count) ib.state.buffer] ∧
    (finalize_index_buffer uploadData uploadBuffer draw ib dirty).2.1 &&&
      ILO_DIRTY_INDEX_BUFFER ≠ 0 := by
  simp only [finalize_index_buffer, hidx, hub, if_pos hmis,
    Bool.true_eq_false, if_false]
  refine ⟨by trivial, ?_⟩
  rw [ILO_DIRTY_INDEX_BUFFER, and_two_pow_ne_zero_iff]
  exact testBit_or_two_pow_self dirty ILO_STATE_INDEX_BUFFER

/-- Closed witness for `finalize_ib_misaligned_window_stage`, at the claim's
scenario (offset 3, element size 4, draw start 10 and count 5). -/
theorem finalize_ib_misaligned_window_stage_witness :
    ((⟨true, 10, 5⟩ : DrawInfo).indexed = true ∧
      (⟨⟨some 1, 3, 4, none⟩, some 1, 0⟩ : IloIb).state.user_buffer = none ∧
      (⟨⟨some 1, 3, 4, none⟩, some 1, 0⟩ : IloIb).state.offset %
        (⟨⟨some 1, 3, 4, none⟩, some 1, 0⟩ : IloIb).state.index_size ≠ 0) ∧
    (finalize_index_buffer (fun _ _ _ => (0, 0)) (fun _ _ _ => (4, 2))
        ⟨true, 10, 5⟩ ⟨⟨some 1, 3, 4, none⟩, some 1, 0⟩ 0).2.2 =
      [UploadCall.buffer
        ((⟨⟨some 1, 3, 4, none⟩, some 1, 0⟩ : IloIb).state.offset +
          (⟨⟨some 1, 3, 4, none⟩, some 1, 0⟩ : IloIb).state.index_size * 10)
        ((⟨⟨some 1, 3, 4, none⟩, some 1, 0⟩ : IloIb).state.index_size * 5)
        (⟨⟨some 1, 3, 4, none⟩, some 1, 0⟩ : IloIb).state.buffer] ∧
    (finalize_index_buffer (fun _ _ _ => (0, 0)) (fun _ _ _ => (4, 2))
        ⟨true, 10, 5⟩ ⟨⟨some 1, 3, 4, none⟩, some 1, 0⟩ 0).2.1 &&&
      ILO_DIRTY_INDEX_BUFFER ≠ 0 := by
  refine ⟨⟨rfl, rfl, by decide⟩, ?_⟩
  exact finalize_ib_misaligned_window_stage (fun _ _ _ => (0, 0))
    (fun _ _ _ => (4, 2)) ⟨true, 10, 5⟩ ⟨⟨some 1, 3, 4, none⟩, some 1, 0⟩ 0
    rfl rfl (by decide)

/-- The trim loop stops at zero or at an occupied slot. -/
theorem slotTrim_zero_or_occupied {α : Type} (slots : Nat → Option α)
    (c : Nat) :
    slotTrim slots c = 0 ∨ (slots (slotTrim slots c - 1)).isSome = true := by
  induction c with
  | zero => exact Or.inl rfl
  | succ n ih =>
    by_cases h : (slots n).isSome = true
    · simp only [slotTrim, if_pos h]
      right
      simpa using h
    · simp only [slotTrim, if_neg h]
      exact ih

/-- The trim loop never grows the count. -/
theorem slotTrim_le {α : Type} (slots : Nat → Option α) (c : Nat) :
    slotTrim slots c ≤ c := by
  induction c with
  | zero => exact Nat.le_refl 0
  | succ n ih =>
    by_cases h : (slots n).isSome = true
    · simp [slotTrim, if_pos h]
    · simp only [slotTrim, if_neg h]
      omega

/-- Every slot the trim loop walked past is empty. -/
theorem slotTrim_none_between {α : Type} (slots : Nat → Option α) (c i : Nat)
    (h1 : slotTrim slots c ≤ i) (h2 : i < c) : slots i = none := by
  induction c with
  | zero => omega
  | succ n ih =>
    by_cases h : (slots n).isSome = true
    · rw [slotTrim, if_pos h] at h1
      omega
    · rw [slotTrim, if_neg h] at h1
      by_cases hin : i < n
      · exact ih h1 hin
      · have hi : i = n := by omega
        subst hi
        cases hs : slots i
        · rfl
        · rw [hs] at h
          exact absurd rfl h

/-- The sparse-update tail of `bind_slots` re-establishes the occupancy
invariant whenever the untouched region above the window was empty. -/
theorem sparse_inv_aux {α : Type} (slots slots2 : Nat → Option α)
    (oldCount start count : Nat)
    (hend : oldCount = 0 ∨ (slots (oldCount - 1)).isSome = true)
    (habove : ∀ i, oldCount ≤ i → slots i = none)
    (hagree : ∀ i, start + count ≤ i → slots2 i = slots i) :
    slotInv
      (if oldCount ≤ start + count then
        (slots2, slotTrim slots2 (start + count))
      else (slots2, oldCount)).1
      (if oldCount ≤ start + count then
        (slots2, slotTrim slots2 (start + count))
      else (slots2, oldCount)).2 := by
  by_cases hcase : oldCount ≤ start + count
  · rw [if_pos hcase]
    constructor
    · exact slotTrim_zero_or_occupied _ _
    · intro i hi
      by_cases hlt : i < start + count
      · exact slotTrim_none_between _ _ _ hi hlt
      · show slots2 i = none
        rw [hagree i (by omega)]
        exact habove i (by omega)
  · rw [if_neg hcase]
    constructor
    · rcases hend with h0 | hocc
      · exact Or.inl h0
      · right
        show (slots2 (oldCount - 1)).isSome = true
        rw [hagree (oldCount - 1) (by omega)]
        exact hocc
    · intro i hi
      show slots2 i = none
      rw [hagree i (by omega)]
      exact habove i (by omega)

/-- C3 (amended): a sparse-update call always preserves the occupancy
invariant; a replace-range call always leaves every slot at index
`>= count` empty, and it establishes the full invariant provided the
supplied handle array is null, or is empty with `start = 0` (as at every
replace-range call site), or has an occupied final element.  (As stated,
the claim fails: a replace-range call whose handle array ends in a null
handle sets `count = start + count` without trimming, leaving slot
`count - 1` empty — see the counterexample.) -/
theorem bind_slots_invariant {α : Type} (slots : Nat → Option α)
    (oldCount start count : Nat) (handles : Option (Nat → Option α))
    (hinv : slotInv slots oldCount) :
    slotInv (bind_slots slots oldCount start count handles false).1
      (bind_slots slots oldCount start count handles false).2 ∧
    (∀ i, (bind_slots slots oldCount start count handles true).2 ≤ i →
      (bind_slots slots oldCount start count handles true).1 i = none) ∧
    ((match handles with
      | none => True
      | some hs => (count = 0 → start = 0) ∧
          (0 < count → (hs (count - 1)).isSome = true)) →
      slotInv (bind_slots slots oldCount start count handles true).1
        (bind_slots slots oldCount start count handles true).2) := by
  obtain ⟨hend, habove⟩ := hinv
  cases handles with
  | none =>
    refine ⟨?_, ?_, ?_⟩
    · show slotInv
        (if oldCount ≤ start + count then
          ((fun i => if start ≤ i ∧ i < start + count then none else slots i),
            slotTrim
              (fun i => if start ≤ i ∧ i < start + count then none
                else slots i) (start + count))
        else
          ((fun i => if start ≤ i ∧ i < start + count then none else slots i),
            oldCount)).1
        (if oldCount ≤ start + count then
          ((fun i => if start ≤ i ∧ i < start + count then none else slots i),
            slotTrim
              (fun i => if start ≤ i ∧ i < start + count then none
                else slots i) (start + count))
        else
          ((fun i => if start ≤ i ∧ i < start + count then none else slots i),
            oldCount)).2
      exact sparse_inv_aux slots _ oldCount start count hend habove
        (fun i hi => if_neg (by omega))
    · intro i _
      show (if i < oldCount then none else slots i) = none
      by_cases h : i < oldCount
      · rw [if_pos h]
      · rw [if_neg h]
        exact habove i (by omega)
    · intro _
      constructor
      · exact Or.inl rfl
      · intro i _
        show (if i < oldCount then none else slots i) = none
        by_cases h : i < oldCount
        · rw [if_pos h]
        · rw [if_neg h]
          exact habove i (by omega)
  | some hs =>
    refine ⟨?_, ?_, ?_⟩
    · show slotInv
        (if oldCount ≤ start + count then
          ((fun i => if start ≤ i ∧ i < start + count then hs (i - start)
              else slots i),
            slotTrim
              (fun i => if start ≤ i ∧ i < start + count then hs (i - start)
                else slots i) (start + count))
        else
          ((fun i => if start ≤ i ∧ i < start + count then hs (i - start)
              else slots i), oldCount)).1
        (if oldCount ≤ start + count then
          ((fun i => if start ≤ i ∧ i < start + count then hs (i - start)
              else slots i),
            slotTrim
              (fun i => if start ≤ i ∧ i < start + count then hs (i - start)
                else slots i) (start + count))
        else
          ((fun i => if start ≤ i ∧ i < start + count then hs (i - start)
              else slots i), oldCount)).2
      exact sparse_inv_aux slots _ oldCount start count hend habove
        (fun i hi => if_neg (by omega))
    · intro i hi
      have hi2 : start + count ≤ i := hi
      show (if i < start then none
        else if i < start + count then hs (i - start)
        else if i < oldCount then none
        else slots i) = none
      rw [if_neg (by omega), if_neg (by omega)]
      by_cases h : i < oldCount
      · rw [if_pos h]
      · rw [if_neg h]
        exact habove i (by omega)
    · rintro ⟨hc0, hlast⟩
      constructor
      · by_cases hc : count = 0
        · subst hc
          have hs0 : start = 0 := hc0 rfl
          subst hs0
          exact Or.inl rfl
        · right
          have hcpos : 0 < count := Nat.pos_of_ne_zero hc
          show ((if start + count - 1 < start then none
            else if start + count - 1 < start + count then
              hs (start + count - 1 - start)
            else if start + count - 1 < oldCount then none
            else slots (start + count - 1))).isSome = true
          rw [if_neg (by omega), if_pos (by omega)]
          have he : start + count - 1 - start = count - 1 := by omega
          rw [he]
          exact hlast hcpos
      · intro i hi
        have hi2 : start + count ≤ i := hi
        show (if i < start then none
          else if i < start + count then hs (i - start)
          else if i < oldCount then none
          else slots i) = none
        rw [if_neg (by omega), if_neg (by omega)]
        by_cases h : i < oldCount
        · rw [if_pos h]
        · rw [if_neg h]
          exact habove i (by omega)

/-- C3 (counterexample): from an empty category satisfying the invariant, a
replace-range call (`unbind_old = true`, as used by the per-stage
sampler/view binders) supplying one null handle yields `count = 1` with slot
`0` empty: the occupancy invariant is violated. -/
theorem bind_slots_invariant_counterexample :
    slotInv (fun _ => (none : Option Nat)) 0 ∧
    ¬ slotInv (bind_slots (fun _ => (none : Option Nat)) 0 0 1
        (some fun _ => none) true).1
      (bind_slots (fun _ => (none : Option Nat)) 0 0 1
        (some fun _ => none) true).2 := by
  constructor
  · exact ⟨Or.inl rfl, fun i _ => rfl⟩
  · rintro ⟨h1 | h1, _⟩
    · exact absurd h1 (by decide)
    · exact absurd h1 (by decide)

/-- Closed witness for `bind_slots_invariant`, at the spec's own scenario: a
sparse update with `start = 2`, `count = 2` and occupied handles on an empty
8-slot category (the resulting count is 4, slots 0-1 stay empty). -/
theorem bind_slots_invariant_witness :
    slotInv (fun _ => (none : Option Nat)) 0 ∧
    slotInv (bind_slots (fun _ => (none : Option Nat)) 0 2 2
        (some fun i => some i) false).1
      (bind_slots (fun _ => (none : Option Nat)) 0 2 2
        (some fun i => some i) false).2 :=
  ⟨⟨Or.inl rfl, fun i _ => rfl⟩,
    (bind_slots_invariant (fun _ => none) 0 2 2 (some fun i => some i)
      ⟨Or.inl rfl, fun i _ => rfl⟩).1⟩

/-- Value of `util_last_bit` at zero. -/
theorem util_last_bit_zero : util_last_bit 0 = 0 := by
  rw [util_last_bit]
  rfl

/-- The function `util_last_bit` vanishes exactly on zero. -/
theorem util_last_bit_eq_zero_iff (m : Nat) : util_last_bit m = 0 ↔ m = 0 := by
  constructor
  · intro h
    by_contra hm
    rw [util_last_bit, if_neg hm] at h
    omega
  · intro h
    subst h
    exact util_last_bit_zero

/-- For a nonzero word, the bit at `util_last_bit - 1` is set: the count is
one past a set bit. -/
theorem util_last_bit_testBit_high (m : Nat) :
    m ≠ 0 → m.testBit (util_last_bit m - 1) = true := by
  induction m using Nat.strong_induction_on with
  | _ m ih =>
    intro hm
    rw [util_last_bit, if_neg hm]
    by_cases h2 : m / 2 = 0
    · have hm1 : m = 1 := by omega
      subst hm1
      simp [h2, util_last_bit_zero]
    · have ihm := ih (m / 2) (Nat.div_lt_self (Nat.pos_of_ne_zero hm) (by omega)) h2
      have hpos : util_last_bit (m / 2) ≠ 0 := by
        rw [Ne, util_last_bit_eq_zero_iff]
        exact h2
      have hstep : util_last_bit (m / 2) + 1 - 1 =
          (util_last_bit (m / 2) - 1) + 1 := by omega
      rw [hstep, Nat.testBit_succ]
      exact ihm

/-- No bit at or above `util_last_bit` is set: it is one past the highest
set bit. -/
theorem util_last_bit_testBit_ge (m : Nat) :
    ∀ j, util_last_bit m ≤ j → m.testBit j = false := by
  induction m using Nat.strong_induction_on with
  | _ m ih =>
    intro j hj
    by_cases hm : m = 0
    · subst hm
      exact Nat.zero_testBit j
    · rw [util_last_bit, if_neg hm] at hj
      obtain ⟨j2, rfl⟩ : ∃ j2, j = j2 + 1 := ⟨j - 1, by omega⟩
      rw [Nat.testBit_succ]
      exact ih (m / 2) (Nat.div_lt_self (Nat.pos_of_ne_zero hm) (by omega))
        j2 (by omega)

/-- C6: when the constant-buffer dirty bit is set at finalize time, after
the constant-buffer resolution phase, for every shader stage: each slot
whose enabled-mask bit is set and that held a pending client byte span now
holds a committed resource (the staged output) with the pending span
cleared (`user_buffer = none`, `user_buffer_size = 0`), and the stage's
count equals the index of the highest set bit of the enabled mask plus one
(characterised as: the count is nonzero, the bit at `count - 1` is set, and
no bit at or above `count` is set), or `0` if no bit is set. -/
theorem finalize_constant_buffers_spec (uploadData : UploadData)
    (dirty : Nat) (cbuf : Nat → CbufStage)
    (hdirty : dirty &&& ILO_DIRTY_CONSTANT_BUFFER ≠ 0) :
    ∀ sh, sh < PIPE_SHADER_TYPES →
      (∀ i, (cbuf sh).enabled_mask.testBit i = true →
        ∀ ub, ((cbuf sh).cso i).user_buffer = some ub →
          ((finalize_constant_buffers uploadData dirty cbuf sh).cso i).resource
              = some (uploadData ((cbuf sh).cso i).user_buffer_size ub 0).2 ∧
            ((finalize_constant_buffers uploadData dirty cbuf
                sh).cso i).user_buffer = none ∧
            ((finalize_constant_buffers uploadData dirty cbuf
                sh).cso i).user_buffer_size = 0) ∧
      ((cbuf sh).enabled_mask = 0 →
        (finalize_constant_buffers uploadData dirty cbuf sh).count = 0) ∧
      ((cbuf sh).enabled_mask ≠ 0 →
        (finalize_constant_buffers uploadData dirty cbuf sh).count ≠ 0 ∧
        (cbuf sh).enabled_mask.testBit
          ((finalize_constant_buffers uploadData dirty cbuf sh).count - 1)
            = true ∧
        ∀ j, (finalize_constant_buffers uploadData dirty cbuf sh).count ≤ j →
          (cbuf sh).enabled_mask.testBit j = false) := by
  intro sh hsh
  have hFC : finalize_constant_buffers uploadData dirty cbuf sh =
      finalize_cbuf_stage uploadData (cbuf sh) := by
    simp only [finalize_constant_buffers]
    rw [if_neg hdirty, if_pos hsh]
  rw [hFC]
  refine ⟨?_, ?_, ?_⟩
  · intro i hbit ub hub
    have hslot : (finalize_cbuf_stage uploadData (cbuf sh)).cso i =
        finalize_cbuf_slot uploadData ((cbuf sh).cso i) := by
      simp only [finalize_cbuf_stage]
      rw [if_pos hbit]
    rw [hslot]
    simp [finalize_cbuf_slot, hub]
  · intro h0
    show util_last_bit (cbuf sh).enabled_mask = 0
    rw [h0]
    exact util_last_bit_zero
  · intro hne
    refine ⟨?_, ?_, ?_⟩
    · show util_last_bit (cbuf sh).enabled_mask ≠ 0
      rw [Ne, util_last_bit_eq_zero_iff]
      exact hne
    · exact util_last_bit_testBit_high _ hne
    · exact util_last_bit_testBit_ge _

/-- Closed witness for `finalize_constant_buffers_spec`, at the spec's own
scenario: slot 2 of stage `PIPE_SHADER_FRAGMENT` holds a 64-byte client span
with no backing buffer (enabled mask `0b100`), and the staging collaborator
returns resource 9 at byte offset 32. -/
theorem finalize_constant_buffers_spec_witness :
    ILO_DIRTY_CONSTANT_BUFFER &&& ILO_DIRTY_CONSTANT_BUFFER ≠ 0 ∧
    (1 : Nat) < PIPE_SHADER_TYPES ∧
    ((finalize_constant_buffers (fun _ _ _ => (32, 9))
        ILO_DIRTY_CONSTANT_BUFFER
        (fun sh => if sh = 1 then
          ⟨fun i => if i = 2 then ⟨none, ⟨none, 0, 0, 0⟩, some 7, 64⟩
            else ⟨none, ⟨none, 0, 0, 0⟩, none, 0⟩, 4, 0⟩
          else ⟨fun _ => ⟨none, ⟨none, 0, 0, 0⟩, none, 0⟩, 0, 0⟩)
        1).cso 2).resource = some 9 ∧
    ((finalize_constant_buffers (fun _ _ _ => (32, 9))
        ILO_DIRTY_CONSTANT_BUFFER
        (fun sh => if sh = 1 then
          ⟨fun i => if i = 2 then ⟨none, ⟨none, 0, 0, 0⟩, some 7, 64⟩
            else ⟨none, ⟨none, 0, 0, 0⟩, none, 0⟩, 4, 0⟩
          else ⟨fun _ => ⟨none, ⟨none, 0, 0, 0⟩, none, 0⟩, 0, 0⟩)
        1).cso 2).user_buffer = none ∧
    ((finalize_constant_buffers (fun _ _ _ => (32, 9))
        ILO_DIRTY_CONSTANT_BUFFER
        (fun sh => if sh = 1 then
          ⟨fun i => if i = 2 then ⟨none, ⟨none, 0, 0, 0⟩, some 7, 64⟩
            else ⟨none, ⟨none, 0, 0, 0⟩, none, 0⟩, 4, 0⟩
          else ⟨fun _ => ⟨none, ⟨none, 0, 0, 0⟩, none, 0⟩, 0, 0⟩)
        1).cso 2).user_buffer_size = 0 := by
  have hd : ILO_DIRTY_CONSTANT_BUFFER &&& ILO_DIRTY_CONSTANT_BUFFER ≠ 0 := by
    decide
  have h := finalize_constant_buffers_spec (fun _ _ _ => (32, 9))
    ILO_DIRTY_CONSTANT_BUFFER
    (fun sh => if sh = 1 then
      ⟨fun i => if i = 2 then ⟨none, ⟨none, 0, 0, 0⟩, some 7, 64⟩
        else ⟨none, ⟨none, 0, 0, 0⟩, none, 0⟩, 4, 0⟩
      else ⟨fun _ => ⟨none, ⟨none, 0, 0, 0⟩, none, 0⟩, 0, 0⟩)
    hd 1 (by decide)
  have hslot := h.1 2 (by decide) 7 rfl
  exact ⟨hd, by decide, hslot.1, hslot.2.1, hslot.2.2⟩

/-- A conditional OR of a mask without bit `k` leaves bit `k` alone. -/
theorem testBit_ite_or_ne (c : Prop) [Decidable c] (a m k : Nat)
    (h : m.testBit k = false) :
    (if c then a ||| m else a).testBit k = a.testBit k := by
  split
  · rw [Nat.testBit_or, h, Bool.or_false]
  · rfl

/-- No sampler-view dirty mask carries the vertex-buffer bit. -/
theorem view_dirty_bits_testBit_vb (sh : Nat) :
    (view_dirty_bits sh).testBit ILO_STATE_VERTEX_BUFFERS = false := by
  unfold view_dirty_bits
  repeat' split
  all_goals decide

/-- The per-stage scans never contribute the vertex-buffer bit. -/
theorem mark_stage_states_testBit_vb (c : MarkCtx) (res : PipeResource)
    (sh states : Nat) :
    (mark_stage_states c res sh states).testBit ILO_STATE_VERTEX_BUFFERS =
      states.testBit ILO_STATE_VERTEX_BUFFERS := by
  simp only [mark_stage_states]
  rw [testBit_ite_or_ne _ _ _ _ (by decide),
    testBit_ite_or_ne _ _ _ _ (view_dirty_bits_testBit_vb sh)]

/-- Only the vertex-buffer scan of `mark_states_value` decides the
vertex-buffer bit of the accumulated mask. -/
theorem mark_states_value_testBit_vb (c : MarkCtx) (res : PipeResource) :
    (mark_states_value c res).1.testBit ILO_STATE_VERTEX_BUFFERS =
      (if res.target = PIPE_BUFFER ∧
          anyRange 32 (fun idx => c.vbEnabledMask.testBit idx &&
            (c.vbBuffer idx == some res.id)) then
        (0 : Nat) ||| ILO_DIRTY_VERTEX_BUFFERS
      else 0).testBit ILO_STATE_VERTEX_BUFFERS := by
  simp only [mark_states_value]
  rw [testBit_ite_or_ne _ _ _ _ (by decide)]
  rw [testBit_ite_or_ne _ _ _ _ (by decide)]
  rw [testBit_ite_or_ne _ _ _ _ (by decide)]
  rw [testBit_ite_or_ne _ _ _ _ (by decide)]
  rw [testBit_ite_or_ne _ _ _ _ (by decide)]
  rw [mark_stage_states_testBit_vb, mark_stage_states_testBit_vb,
    mark_stage_states_testBit_vb, mark_stage_states_testBit_vb]
  rw [testBit_ite_or_ne _ _ _ _ (by decide)]
  rw [testBit_ite_or_ne _ _ _ _ (by decide)]

/-- C7: the resource-change propagator raises the vertex-buffer dirty bit
(contributes it to the accumulated `states` mask) iff the resource is
buffer-typed and some enabled vertex-buffer slot references it as its
buffer; consequently the new dirty word has the bit iff the old one had it
or that condition holds. -/
theorem mark_states_vb_iff (c : MarkCtx) (res : PipeResource)
    (hmask : c.vbEnabledMask < 2 ^ 32) :
    ((mark_states_value c res).1.testBit ILO_STATE_VERTEX_BUFFERS = true ↔
      res.target = PIPE_BUFFER ∧
        ∃ i, c.vbEnabledMask.testBit i = true ∧
          c.vbBuffer i = some res.id) ∧
    ((ilo_mark_states_with_resource_dirty c res).dirty.testBit
        ILO_STATE_VERTEX_BUFFERS = true ↔
      c.dirty.testBit ILO_STATE_VERTEX_BUFFERS = true ∨
        (res.target = PIPE_BUFFER ∧
          ∃ i, c.vbEnabledMask.testBit i = true ∧
            c.vbBuffer i = some res.id)) := by
  have key : (mark_states_value c res).1.testBit ILO_STATE_VERTEX_BUFFERS
      = true ↔
      res.target = PIPE_BUFFER ∧
        ∃ i, c.vbEnabledMask.testBit i = true ∧
          c.vbBuffer i = some res.id := by
    rw [mark_states_value_testBit_vb]
    split
    · next hcond =>
      rw [ILO_DIRTY_VERTEX_BUFFERS, testBit_or_two_pow_self]
      constructor
      · intro _
        refine ⟨hcond.1, ?_⟩
        have h2 := hcond.2
        rw [anyRange, List.any_eq_true] at h2
        obtain ⟨idx, _, hp⟩ := h2
        rw [Bool.and_eq_true, beq_iff_eq] at hp
        exact ⟨idx, hp.1, hp.2⟩
      · intro _
        rfl
    · next hcond =>
      simp only [Nat.zero_testBit]
      constructor
      · intro h
        cases h
      · rintro ⟨htgt, i, hbit, hbuf⟩
        exfalso
        apply hcond
        refine ⟨htgt, ?_⟩
        rw [anyRange, List.any_eq_true]
        have hilt : i < 32 := by
          by_contra hge
          have : c.vbEnabledMask < 2 ^ i :=
            lt_of_lt_of_le hmask (Nat.pow_le_pow_right (by omega) (by omega))
          rw [Nat.testBit_eq_false_of_lt this] at hbit
          cases hbit
        refine ⟨i, List.mem_range.mpr hilt, ?_⟩
        rw [Bool.and_eq_true, beq_iff_eq]
        exact ⟨hbit, hbuf⟩
  refine ⟨key, ?_⟩
  show (c.dirty ||| (mark_states_value c res).1).testBit
      ILO_STATE_VERTEX_BUFFERS = true ↔ _
  rw [Nat.testBit_or, Bool.or_eq_true, key]

/-- Closed witness for `mark_states_vb_iff`: slot 1 enabled and bound to
buffer 5, with buffer resource 5 invalidated. -/
theorem mark_states_vb_iff_witness :
    (2 : Nat) < 2 ^ 32 ∧
    ((mark_states_value
        ⟨0, 2, (fun i => if i = 1 then some 5 else none), none, 0,
          (fun _ => none), (fun _ => 0), (fun _ _ => none), (fun _ _ => none),
          0, (fun _ => none), 0, (fun _ => none), none, 0, (fun _ => none),
          0, (fun _ => none)⟩
        ⟨5, 0⟩).1.testBit ILO_STATE_VERTEX_BUFFERS = true ↔
      (⟨5, 0⟩ : PipeResource).target = PIPE_BUFFER ∧
        ∃ i, (2 : Nat).testBit i = true ∧
          (fun i => if i = 1 then some 5 else none) i =
            some (⟨5, 0⟩ : PipeResource).id) :=
  ⟨by decide,
    (mark_states_vb_iff
      ⟨0, 2, (fun i => if i = 1 then some 5 else none), none, 0,
        (fun _ => none), (fun _ => 0), (fun _ _ => none), (fun _ _ => none),
        0, (fun _ => none), 0, (fun _ => none), none, 0, (fun _ => none),
        0, (fun _ => none)⟩
      ⟨5, 0⟩ (by decide)).1⟩

/-- C2 (code bug, evaluated): one occupied compute shader-resource slot
references resource 5, yet after `ilo_mark_states_with_resource_dirty` the
compute-resources dirty bit is not raised and the slot has been cleared:
the scan releases each slot before comparing it (`pipe_surface_reference
(&states[i], NULL)` precedes the `states[i]->texture == res` test, a read
of a just-nulled pointer), so the comparison can never match, contradicting
both the claim and the spec; the spec itself flags this as a defect. -/
theorem mark_states_compute_resources_bug :
    (⟨0, 0, (fun _ => none), none, 0, (fun _ => none), (fun _ => 0),
      (fun _ _ => none), (fun _ _ => none), 0, (fun _ => none), 0,
      (fun _ => none), none, 1, (fun i => if i = 0 then some 5 else none),
      0, (fun _ => none)⟩ : MarkCtx).csResourceTexture 0 = some 5 ∧
    (ilo_mark_states_with_resource_dirty
      ⟨0, 0, (fun _ => none), none, 0, (fun _ => none), (fun _ => 0),
        (fun _ _ => none), (fun _ _ => none), 0, (fun _ => none), 0,
        (fun _ => none), none, 1, (fun i => if i = 0 then some 5 else none),
        0, (fun _ => none)⟩
      ⟨5, 1⟩).dirty.testBit ILO_STATE_COMPUTE_RESOURCES = false ∧
    (ilo_mark_states_with_resource_dirty
      ⟨0, 0, (fun _ => none), none, 0, (fun _ => none), (fun _ => 0),
        (fun _ _ => none), (fun _ _ => none), 0, (fun _ => none), 0,
        (fun _ => none), none, 1, (fun i => if i = 0 then some 5 else none),
        0, (fun _ => none)⟩
      ⟨5, 1⟩).csResourceTexture 0 = none := by
  refine ⟨rfl, by decide, rfl⟩

/-- Case equations for the vertex iteration (`type = 0`) of
`finalize_shader_states`. -/
theorem shader_type_vertex (selK : SelectKernel) (selR : SelectRouting)
    (s : ShaderCtx) :
    (s.vs = none → finalize_shader_type selK selR 0 s = (s, [])) ∧
    ∀ v, s.vs = some v →
      (s.dirty &&& ILO_DIRTY_VS ≠ 0 →
        finalize_shader_type selK selR 0 s =
          (s, [SelCall.kernel v ILO_DIRTY_ALL])) ∧
      (s.dirty &&& ILO_DIRTY_VS = 0 → selK v s.dirty = true →
        finalize_shader_type selK selR 0 s =
          ({ s with dirty := s.dirty ||| ILO_DIRTY_VS },
            [SelCall.kernel v s.dirty])) ∧
      (s.dirty &&& ILO_DIRTY_VS = 0 → selK v s.dirty = false →
        finalize_shader_type selK selR 0 s =
          (s, [SelCall.kernel v s.dirty])) := by
  constructor
  · intro h
    simp [finalize_shader_type, PIPE_SHADER_VERTEX, PIPE_SHADER_GEOMETRY,
      PIPE_SHADER_FRAGMENT, h]
  · intro v hv
    refine ⟨?_, ?_, ?_⟩
    · intro hd
      simp [finalize_shader_type, PIPE_SHADER_VERTEX, PIPE_SHADER_GEOMETRY,
        PIPE_SHADER_FRAGMENT, hv, hd]
    · intro hd hsel
      simp [finalize_shader_type, PIPE_SHADER_VERTEX, PIPE_SHADER_GEOMETRY,
        PIPE_SHADER_FRAGMENT, hv, hd, hsel]
    · intro hd hsel
      simp [finalize_shader_type, PIPE_SHADER_VERTEX, PIPE_SHADER_GEOMETRY,
        PIPE_SHADER_FRAGMENT, hv, hd, hsel]

/-- Widening a mask preserves a nonempty intersection. -/
theorem and_or_left_ne (a m x : Nat) (h : a &&& m ≠ 0) :
    a &&& (m ||| x) ≠ 0 := by
  intro hz
  apply h
  apply Nat.zero_of_testBit_eq_false
  intro i
  have h2 := congrArg (fun y => Nat.testBit y i) hz
  simp only [Nat.testBit_and, Nat.testBit_or, Nat.zero_testBit] at h2 ⊢
  cases ha : a.testBit i <;> cases hm : m.testBit i <;> simp_all

/-- Case equations for the geometry iteration (`type = 2`) of
`finalize_shader_states`. -/
theorem shader_type_geometry (selK : SelectKernel) (selR : SelectRouting)
    (s : ShaderCtx) :
    (s.gs = none → finalize_shader_type selK selR 2 s = (s, [])) ∧
    ∀ g, s.gs = some g →
      (s.dirty &&& ILO_DIRTY_GS ≠ 0 →
        finalize_shader_type selK selR 2 s =
          (s, [SelCall.kernel g ILO_DIRTY_ALL])) ∧
      (s.dirty &&& ILO_DIRTY_GS = 0 → selK g s.dirty = true →
        finalize_shader_type selK selR 2 s =
          ({ s with dirty := s.dirty ||| ILO_DIRTY_GS },
            [SelCall.kernel g s.dirty])) ∧
      (s.dirty &&& ILO_DIRTY_GS = 0 → selK g s.dirty = false →
        finalize_shader_type selK selR 2 s =
          (s, [SelCall.kernel g s.dirty])) := by
  constructor
  · intro h
    simp [finalize_shader_type, PIPE_SHADER_VERTEX, PIPE_SHADER_GEOMETRY,
      PIPE_SHADER_FRAGMENT, h]
  · intro g hg
    refine ⟨?_, ?_, ?_⟩
    · intro hd
      simp [finalize_shader_type, PIPE_SHADER_VERTEX, PIPE_SHADER_GEOMETRY,
        PIPE_SHADER_FRAGMENT, hg, hd]
    · intro hd hsel
      simp [finalize_shader_type, PIPE_SHADER_VERTEX, PIPE_SHADER_GEOMETRY,
        PIPE_SHADER_FRAGMENT, hg, hd, hsel]
    · intro hd hsel
      simp [finalize_shader_type, PIPE_SHADER_VERTEX, PIPE_SHADER_GEOMETRY,
        PIPE_SHADER_FRAGMENT, hg, hd, hsel]

/-- The compute iteration (`type = 3`) hits the default switch arm and is
a no-op. -/
theorem shader_type_compute (selK : SelectKernel) (selR : SelectRouting)
    (s : ShaderCtx) : finalize_shader_type selK selR 3 s = (s, []) := by
  simp [finalize_shader_type, PIPE_SHADER_VERTEX, PIPE_SHADER_GEOMETRY,
    PIPE_SHADER_FRAGMENT]

/-- Behaviour of the fragment iteration (`type = 1`): the kernel-selection
call it issues and the FS-bit consequences, through the extra
attribute-routing (SBE) step. -/
theorem shader_type_fragment (selK : SelectKernel) (selR : SelectRouting)
    (s : ShaderCtx) :
    (s.fs = none → finalize_shader_type selK selR 1 s = (s, [])) ∧
    ∀ f, s.fs = some f →
      (s.dirty &&& ILO_DIRTY_FS ≠ 0 →
        SelCall.kernel f ILO_DIRTY_ALL ∈
          (finalize_shader_type selK selR 1 s).2 ∧
        (finalize_shader_type selK selR 1 s).1.dirty &&&
          ILO_DIRTY_FS ≠ 0) ∧
      (s.dirty &&& ILO_DIRTY_FS = 0 →
        SelCall.kernel f s.dirty ∈ (finalize_shader_type selK selR 1 s).2 ∧
        (selK f s.dirty = true →
          (finalize_shader_type selK selR 1 s).1.dirty &&&
            ILO_DIRTY_FS ≠ 0)) := by
  constructor
  · intro h
    simp [finalize_shader_type, PIPE_SHADER_VERTEX, PIPE_SHADER_GEOMETRY,
      PIPE_SHADER_FRAGMENT, h]
  · intro f hf
    constructor
    · intro hd
      have hd2 : s.dirty &&& (ILO_DIRTY_FS ||| ILO_DIRTY_GS ||| ILO_DIRTY_VS
          ||| ILO_DIRTY_RASTERIZER) ≠ 0 :=
        and_or_left_ne _ _ _ (and_or_left_ne _ _ _ (and_or_left_ne _ _ _ hd))
      constructor
      · simp [finalize_shader_type, PIPE_SHADER_VERTEX, PIPE_SHADER_GEOMETRY,
          PIPE_SHADER_FRAGMENT, hf, hd, hd2]
        repeat' split
        all_goals simp
      · simp [finalize_shader_type, PIPE_SHADER_VERTEX, PIPE_SHADER_GEOMETRY,
          PIPE_SHADER_FRAGMENT, hf, hd, hd2]
        repeat' split
        all_goals first
          | exact or_preserve_and_ne _ _ _ hd
          | exact hd
    · intro hd
      have hset : (s.dirty ||| ILO_DIRTY_FS) &&& ILO_DIRTY_FS ≠ 0 := by
        rw [ILO_DIRTY_FS, and_two_pow_ne_zero_iff]
        exact testBit_or_two_pow_self s.dirty ILO_STATE_FS
      cases hsel : selK f s.dirty
      · constructor
        · simp [finalize_shader_type, PIPE_SHADER_VERTEX,
            PIPE_SHADER_GEOMETRY, PIPE_SHADER_FRAGMENT, hf, hd, hsel]
          repeat' split
          all_goals simp
        · intro hc
          cases hc
      · have hd2 : (s.dirty ||| ILO_DIRTY_FS) &&&
            (ILO_DIRTY_FS ||| ILO_DIRTY_GS ||| ILO_DIRTY_VS
              ||| ILO_DIRTY_RASTERIZER) ≠ 0 :=
          and_or_left_ne _ _ _ (and_or_left_ne _ _ _
            (and_or_left_ne _ _ _ hset))
        constructor
        · simp [finalize_shader_type, PIPE_SHADER_VERTEX,
            PIPE_SHADER_GEOMETRY, PIPE_SHADER_FRAGMENT, hf, hd, hsel, hd2]
          repeat' split
          all_goals simp
        · intro _
          simp [finalize_shader_type, PIPE_SHADER_VERTEX,
            PIPE_SHADER_GEOMETRY, PIPE_SHADER_FRAGMENT, hf, hd, hsel, hd2]
          repeat' split
          all_goals first
            | exact or_preserve_and_ne _ _ _ hset
            | exact hset

/-- The vertex iteration only adds dirty bits. -/
theorem shader_type_mono_zero (selK : SelectKernel) (selR : SelectRouting)
    (s : ShaderCtx) :
    s.dirty ||| (finalize_shader_type selK selR 0 s).1.dirty =
      (finalize_shader_type selK selR 0 s).1.dirty := by
  rcases hv : s.vs with _ | v <;>
    simp [finalize_shader_type, PIPE_SHADER_VERTEX, PIPE_SHADER_GEOMETRY,
      PIPE_SHADER_FRAGMENT, hv] <;>
    repeat' split <;>
    try simp_all [← Nat.or_assoc, Nat.or_self]

/-- The fragment iteration only adds dirty bits. -/
theorem shader_type_mono_one (selK : SelectKernel) (selR : SelectRouting)
    (s : ShaderCtx) :
    s.dirty ||| (finalize_shader_type selK selR 1 s).1.dirty =
      (finalize_shader_type selK selR 1 s).1.dirty := by
  rcases hf : s.fs with _ | f <;>
    simp [finalize_shader_type, PIPE_SHADER_VERTEX, PIPE_SHADER_GEOMETRY,
      PIPE_SHADER_FRAGMENT, hf] <;>
    repeat' split <;>
    try simp_all [← Nat.or_assoc, Nat.or_self]

/-- The geometry iteration only adds dirty bits. -/
theorem shader_type_mono_two (selK : SelectKernel) (selR : SelectRouting)
    (s : ShaderCtx) :
    s.dirty ||| (finalize_shader_type selK selR 2 s).1.dirty =
      (finalize_shader_type selK selR 2 s).1.dirty := by
  rcases hg : s.gs with _ | g <;>
    simp [finalize_shader_type, PIPE_SHADER_VERTEX, PIPE_SHADER_GEOMETRY,
      PIPE_SHADER_FRAGMENT, hg] <;>
    repeat' split <;>
    try simp_all [← Nat.or_assoc, Nat.or_self]

/-- The vertex iteration does not change the bound shaders or
rasterizer. -/
theorem shader_type_fields_zero (selK : SelectKernel) (selR : SelectRouting)
    (s : ShaderCtx) :
    (finalize_shader_type selK selR 0 s).1.vs = s.vs ∧
    (finalize_shader_type selK selR 0 s).1.gs = s.gs ∧
    (finalize_shader_type selK selR 0 s).1.fs = s.fs ∧
    (finalize_shader_type selK selR 0 s).1.rasterizer = s.rasterizer := by
  rcases hv : s.vs with _ | v <;>
    simp [finalize_shader_type, PIPE_SHADER_VERTEX, PIPE_SHADER_GEOMETRY,
      PIPE_SHADER_FRAGMENT, hv] <;>
    repeat' split <;>
    try simp_all

/-- The fragment iteration does not change the bound shaders or
rasterizer. -/
theorem shader_type_fields_one (selK : SelectKernel) (selR : SelectRouting)
    (s : ShaderCtx) :
    (finalize_shader_type selK selR 1 s).1.vs = s.vs ∧
    (finalize_shader_type selK selR 1 s).1.gs = s.gs ∧
    (finalize_shader_type selK selR 1 s).1.fs = s.fs ∧
    (finalize_shader_type selK selR 1 s).1.rasterizer = s.rasterizer := by
  rcases hf : s.fs with _ | f <;>
    simp [finalize_shader_type, PIPE_SHADER_VERTEX, PIPE_SHADER_GEOMETRY,
      PIPE_SHADER_FRAGMENT, hf] <;>
    repeat' split <;>
    try simp_all

/-- A bit surviving into a superset dirty word. -/
theorem and_ne_of_or_eq (a b m : Nat) (hmono : a ||| b = b)
    (h : a &&& m ≠ 0) : b &&& m ≠ 0 := by
  rw [← hmono]
  exact or_preserve_and_ne a b m h

/-- The function `finalize_shader_states` is the composition of the four stage
iterations, in source order (vertex, fragment, geometry, compute). -/
theorem finalize_shader_states_eq (selK : SelectKernel)
    (selR : SelectRouting) (ilo : ShaderCtx) :
    finalize_shader_states selK selR ilo =
      ((finalize_shader_type selK selR 3
        (finalize_shader_type selK selR 2
          (finalize_shader_type selK selR 1
            (finalize_shader_type selK selR 0 ilo).1).1).1).1,
      (finalize_shader_type selK selR 0 ilo).2 ++
        (finalize_shader_type selK selR 1
          (finalize_shader_type selK selR 0 ilo).1).2 ++
        (finalize_shader_type selK selR 2
          (finalize_shader_type selK selR 1
            (finalize_shader_type selK selR 0 ilo).1).1).2 ++
        (finalize_shader_type selK selR 3
          (finalize_shader_type selK selR 2
            (finalize_shader_type selK selR 1
              (finalize_shader_type selK selR 0 ilo).1).1).1).2) := rfl

/-- Shader finalization only adds dirty bits. -/
theorem shader_states_mono (selK : SelectKernel) (selR : SelectRouting)
    (ilo : ShaderCtx) :
    ilo.dirty ||| (finalize_shader_states selK selR ilo).1.dirty =
      (finalize_shader_states selK selR ilo).1.dirty := by
  rw [finalize_shader_states_eq]
  exact or_mono_trans _ _ _
    (or_mono_trans _ _ _
      (or_mono_trans _ _ _ (shader_type_mono_zero selK selR ilo)
        (shader_type_mono_one selK selR _))
      (shader_type_mono_two selK selR _))
    (Nat.or_self _)

/-- C4: in the shader-resolution phase, for each bound graphics shader
stage (vertex, geometry, fragment): if the stage's own dirty bit is set
when the stage is processed, kernel selection is invoked against the union
of all dirty bits (`ILO_DIRTY_ALL`); otherwise it is invoked against only
the currently-dirty bits, and if that selection reports a different
kernel, the stage's own dirty bit is raised.  In particular, a stage bit
set before finalize is still set afterward (the phase only adds bits). -/
theorem finalize_shader_states_spec (selK : SelectKernel)
    (selR : SelectRouting) (ilo : ShaderCtx) :
    (∀ v, ilo.vs = some v →
      (ilo.dirty &&& ILO_DIRTY_VS ≠ 0 →
        SelCall.kernel v ILO_DIRTY_ALL ∈
          (finalize_shader_states selK selR ilo).2) ∧
      (ilo.dirty &&& ILO_DIRTY_VS = 0 →
        SelCall.kernel v ilo.dirty ∈
          (finalize_shader_states selK selR ilo).2 ∧
        (selK v ilo.dirty = true →
          (finalize_shader_states selK selR ilo).1.dirty &&&
            ILO_DIRTY_VS ≠ 0))) ∧
    (∀ f, ilo.fs = some f →
      ((finalize_shader_type selK selR 0 ilo).1.dirty &&&
          ILO_DIRTY_FS ≠ 0 →
        SelCall.kernel f ILO_DIRTY_ALL ∈
          (finalize_shader_states selK selR ilo).2) ∧
      ((finalize_shader_type selK selR 0 ilo).1.dirty &&&
          ILO_DIRTY_FS = 0 →
        SelCall.kernel f (finalize_shader_type selK selR 0 ilo).1.dirty ∈
          (finalize_shader_states selK selR ilo).2 ∧
        (selK f (finalize_shader_type selK selR 0 ilo).1.dirty = true →
          (finalize_shader_states selK selR ilo).1.dirty &&&
            ILO_DIRTY_FS ≠ 0))) ∧
    (∀ g, ilo.gs = some g →
      ((finalize_shader_type selK selR 1
          (finalize_shader_type selK selR 0 ilo).1).1.dirty &&&
          ILO_DIRTY_GS ≠ 0 →
        SelCall.kernel g ILO_DIRTY_ALL ∈
          (finalize_shader_states selK selR ilo).2) ∧
      ((finalize_shader_type selK selR 1
          (finalize_shader_type selK selR 0 ilo).1).1.dirty &&&
          ILO_DIRTY_GS = 0 →
        SelCall.kernel g (finalize_shader_type selK selR 1
          (finalize_shader_type selK selR 0 ilo).1).1.dirty ∈
          (finalize_shader_states selK selR ilo).2 ∧
        (selK g (finalize_shader_type selK selR 1
            (finalize_shader_type selK selR 0 ilo).1).1.dirty = true →
          (finalize_shader_states selK selR ilo).1.dirty &&&
            ILO_DIRTY_GS ≠ 0))) ∧
    (ilo.dirty &&& ILO_DIRTY_VS ≠ 0 →
      (finalize_shader_states selK selR ilo).1.dirty &&&
        ILO_DIRTY_VS ≠ 0) ∧
    (ilo.dirty &&& ILO_DIRTY_GS ≠ 0 →
      (finalize_shader_states selK selR ilo).1.dirty &&&
        ILO_DIRTY_GS ≠ 0) ∧
    (ilo.dirty &&& ILO_DIRTY_FS ≠ 0 →
      (finalize_shader_states selK selR ilo).1.dirty &&&
        ILO_DIRTY_FS ≠ 0) := by
  have hmono1 := shader_type_mono_one selK selR
    (finalize_shader_type selK selR 0 ilo).1
  have hmono2 := shader_type_mono_two selK selR
    (finalize_shader_type selK selR 1
      (finalize_shader_type selK selR 0 ilo).1).1
  have hlift1 : (finalize_shader_type selK selR 0 ilo).1.dirty |||
      (finalize_shader_states selK selR ilo).1.dirty =
      (finalize_shader_states selK selR ilo).1.dirty := by
    rw [finalize_shader_states_eq]
    exact or_mono_trans _ _ _ hmono1 (or_mono_trans _ _ _ hmono2
      (Nat.or_self _))
  have hlift2 : (finalize_shader_type selK selR 1
        (finalize_shader_type selK selR 0 ilo).1).1.dirty |||
      (finalize_shader_states selK selR ilo).1.dirty =
      (finalize_shader_states selK selR ilo).1.dirty := by
    rw [finalize_shader_states_eq]
    exact or_mono_trans _ _ _ hmono2 (Nat.or_self _)
  refine ⟨?_, ?_, ?_, ?_, ?_, ?_⟩
  · intro v hv
    obtain ⟨-, hsome⟩ := shader_type_vertex selK selR ilo
    obtain ⟨hA, hB, hC⟩ := hsome v hv
    constructor
    · intro hd
      rw [finalize_shader_states_eq, hA hd]
      simp
    · intro hd0
      constructor
      · cases hsel : selK v ilo.dirty
        · rw [finalize_shader_states_eq, hC hd0 hsel]
          simp
        · rw [finalize_shader_states_eq, hB hd0 hsel]
          simp
      · intro hsel
        have h1 : (finalize_shader_type selK selR 0 ilo).1.dirty &&&
            ILO_DIRTY_VS ≠ 0 := by
          rw [hB hd0 hsel]
          rw [ILO_DIRTY_VS, and_two_pow_ne_zero_iff]
          exact testBit_or_two_pow_self _ _
        exact and_ne_of_or_eq _ _ _ hlift1 h1
  · intro f hf
    have hf1 : (finalize_shader_type selK selR 0 ilo).1.fs = some f := by
      rw [(shader_type_fields_zero selK selR ilo).2.2.1, hf]
    obtain ⟨-, hsome⟩ := shader_type_fragment selK selR
      (finalize_shader_type selK selR 0 ilo).1
    obtain ⟨hA, hB⟩ := hsome f hf1
    constructor
    · intro hd
      obtain ⟨hmem, -⟩ := hA hd
      rw [finalize_shader_states_eq]
      exact List.mem_append_left _ (List.mem_append_left _
        (List.mem_append_right _ hmem))
    · intro hd0
      refine ⟨?_, ?_⟩
      · obtain ⟨hmem, -⟩ := hB hd0
        rw [finalize_shader_states_eq]
        exact List.mem_append_left _ (List.mem_append_left _
          (List.mem_append_right _ hmem))
      · intro hsel
        obtain ⟨-, himp⟩ := hB hd0
        exact and_ne_of_or_eq _ _ _ hlift2 (himp hsel)
  · intro g hg
    have hg2 : (finalize_shader_type selK selR 1
        (finalize_shader_type selK selR 0 ilo).1).1.gs = some g := by
      rw [(shader_type_fields_one selK selR _).2.1,
        (shader_type_fields_zero selK selR ilo).2.1, hg]
    obtain ⟨-, hsome⟩ := shader_type_geometry selK selR
      (finalize_shader_type selK selR 1
        (finalize_shader_type selK selR 0 ilo).1).1
    obtain ⟨hA, hB, hC⟩ := hsome g hg2
    constructor
    · intro hd
      rw [finalize_shader_states_eq, hA hd]
      simp
    · intro hd0
      constructor
      · cases hsel : selK g (finalize_shader_type selK selR 1
            (finalize_shader_type selK selR 0 ilo).1).1.dirty
        · rw [finalize_shader_states_eq, hC hd0 hsel]
          simp
        · rw [finalize_shader_states_eq, hB hd0 hsel]
          simp
      · intro hsel
        have h2 : (finalize_shader_type selK selR 2
            (finalize_shader_type selK selR 1
              (finalize_shader_type selK selR 0 ilo).1).1).1.dirty &&&
            ILO_DIRTY_GS ≠ 0 := by
          rw [hB hd0 hsel]
          rw [ILO_DIRTY_GS, and_two_pow_ne_zero_iff]
          exact testBit_or_two_pow_self _ _
        rw [finalize_shader_states_eq]
        exact and_ne_of_or_eq _ _ _ (Nat.or_self _) h2
  · intro hd
    exact and_ne_of_or_eq _ _ _ (shader_states_mono selK selR ilo) hd
  · intro hd
    exact and_ne_of_or_eq _ _ _ (shader_states_mono selK selR ilo) hd
  · intro hd
    exact and_ne_of_or_eq _ _ _ (shader_states_mono selK selR ilo) hd

/-- ORing a category mask into the dirty word sets the category bit. -/
theorem or_bit_ne (d k : Nat) : (d ||| 2 ^ k) &&& 2 ^ k ≠ 0 := by
  rw [and_two_pow_ne_zero_iff]
  exact testBit_or_two_pow_self d k

/-- The mutator `ilo_set_constant_buffer` always ORs the constant-buffer bit. -/
theorem set_constant_buffer_dirty (index : Nat)
    (state : Option PipeConstantBuffer) (st : CbufStage) (dirty : Nat) :
    (ilo_set_constant_buffer index state st dirty).2 =
      dirty ||| ILO_DIRTY_CONSTANT_BUFFER := by
  cases state <;> rfl

/-- The mutator `ilo_set_viewport_states` always ORs the viewport bit. -/
theorem set_viewport_states_dirty (mkCso : Nat → Nat)
    (start num : Nat) (viewports : Option (Nat → Nat)) (vp : ViewportInfo)
    (dirty : Nat) :
    (ilo_set_viewport_states mkCso start num viewports vp dirty).2 =
      dirty ||| ILO_DIRTY_VIEWPORT := by
  cases viewports <;> rfl

/-- The mutator `ilo_set_index_buffer` always ORs the index-buffer bit. -/
theorem set_index_buffer_dirty (state : Option PipeIndexBuffer) (ib : IloIb)
    (dirty : Nat) :
    (ilo_set_index_buffer state ib dirty).2 =
      dirty ||| ILO_DIRTY_INDEX_BUFFER := by
  cases state <;> rfl

/-- Index-buffer finalization only adds dirty bits. -/
theorem finalize_ib_mono (uploadData : UploadData)
    (uploadBuffer : UploadBuffer) (draw : DrawInfo) (ib : IloIb)
    (dirty : Nat) :
    dirty ||| (finalize_index_buffer uploadData uploadBuffer draw ib
        dirty).2.1 =
      (finalize_index_buffer uploadData uploadBuffer draw ib dirty).2.1 := by
  rcases hub : ib.state.user_buffer with _ | u <;>
  simp [finalize_index_buffer, hub] <;>
  repeat' split <;>
  try simp_all [← Nat.or_assoc, Nat.or_self]

/-- C8: the dirty flag set is initialized to all-dirty at context
creation (`ilo_init_states`), every modelled operation of this core —
each binding mutator, the resource-change propagator, shader and
index-buffer finalization and the whole per-draw finalizer — only ever
adds bits (the old dirty word ORed into the new one is the new one), and
each binding mutator unconditionally raises its own category bit, for
every argument value (hence also when the newly set value equals the old
one). -/
theorem dirty_bits_lifecycle :
    ilo_init_states = ILO_DIRTY_ALL ∧
    (∀ i st s d, d ||| (ilo_set_constant_buffer i st s d).2 =
      (ilo_set_constant_buffer i st s d).2) ∧
    (∀ mk a b v vp d, d ||| (ilo_set_viewport_states mk a b v vp d).2 =
      (ilo_set_viewport_states mk a b v vp d).2) ∧
    (∀ st ib d, d ||| (ilo_set_index_buffer st ib d).2 =
      (ilo_set_index_buffer st ib d).2) ∧
    (∀ n sm sl c d, d ||| (ilo_bind_fragment_sampler_states n sm sl c d).2 =
      (ilo_bind_fragment_sampler_states n sm sl c d).2) ∧
    (∀ a b sf sl c d, d ||| (ilo_set_shader_resources a b sf sl c d).2 =
      (ilo_set_shader_resources a b sf sl c d).2) ∧
    (∀ a b sf sl c d, d ||| (ilo_set_compute_resources a b sf sl c d).2 =
      (ilo_set_compute_resources a b sf sl c d).2) ∧
    (∀ a b rs sl c d, d ||| (ilo_set_global_binding a b rs sl c d).2 =
      (ilo_set_global_binding a b rs sl c d).2) ∧
    (∀ s bl d, d ||| (ilo_bind_blend_state s bl d).2 =
      (ilo_bind_blend_state s bl d).2) ∧
    (∀ s ctx, ctx.dirty ||| (ilo_bind_fs_state s ctx).dirty =
      (ilo_bind_fs_state s ctx).dirty) ∧
    (∀ c res, c.dirty |||
        (ilo_mark_states_with_resource_dirty c res).dirty =
      (ilo_mark_states_with_resource_dirty c res).dirty) ∧
    (∀ selK selR s, s.dirty |||
        (finalize_shader_states selK selR s).1.dirty =
      (finalize_shader_states selK selR s).1.dirty) ∧
    (∀ uD uB draw ib d, d |||
        (finalize_index_buffer uD uB draw ib d).2.1 =
      (finalize_index_buffer uD uB draw ib d).2.1) ∧
    (∀ selK selR uD uB c draw, c.sh.dirty |||
        (ilo_finalize_3d_states selK selR uD uB c draw).1.sh.dirty =
      (ilo_finalize_3d_states selK selR uD uB c draw).1.sh.dirty) ∧
    (∀ i st s d, (ilo_set_constant_buffer i st s d).2 &&&
      ILO_DIRTY_CONSTANT_BUFFER ≠ 0) ∧
    (∀ mk a b v vp d, (ilo_set_viewport_states mk a b v vp d).2 &&&
      ILO_DIRTY_VIEWPORT ≠ 0) ∧
    (∀ st ib d, (ilo_set_index_buffer st ib d).2 &&&
      ILO_DIRTY_INDEX_BUFFER ≠ 0) ∧
    (∀ n sm sl c d, (ilo_bind_fragment_sampler_states n sm sl c d).2 &&&
      ILO_DIRTY_FRAGMENT_SAMPLERS ≠ 0) ∧
    (∀ a b sf sl c d, (ilo_set_shader_resources a b sf sl c d).2 &&&
      ILO_DIRTY_SHADER_RESOURCES ≠ 0) ∧
    (∀ a b sf sl c d, (ilo_set_compute_resources a b sf sl c d).2 &&&
      ILO_DIRTY_COMPUTE_RESOURCES ≠ 0) ∧
    (∀ a b rs sl c d, (ilo_set_global_binding a b rs sl c d).2 &&&
      ILO_DIRTY_GLOBAL_BINDING ≠ 0) ∧
    (∀ s bl d, (ilo_bind_blend_state s bl d).2 &&& ILO_DIRTY_BLEND ≠ 0) ∧
    (∀ s ctx, (ilo_bind_fs_state s ctx).dirty &&& ILO_DIRTY_FS ≠ 0) := by
  refine ⟨rfl, ?_, ?_, ?_, ?_, ?_, ?_, ?_, ?_, ?_, ?_, ?_, ?_, ?_, ?_, ?_,
    ?_, ?_, ?_, ?_, ?_, ?_, ?_⟩
  · intro i st s d
    rw [set_constant_buffer_dirty]
    exact or_step_mono _ _
  · intro mk a b v vp d
    rw [set_viewport_states_dirty]
    exact or_step_mono _ _
  · intro st ib d
    rw [set_index_buffer_dirty]
    exact or_step_mono _ _
  · intro n sm sl c d
    exact or_step_mono _ _
  · intro a b sf sl c d
    exact or_step_mono _ _
  · intro a b sf sl c d
    exact or_step_mono _ _
  · intro a b rs sl c d
    exact or_step_mono _ _
  · intro s bl d
    exact or_step_mono _ _
  · intro s ctx
    exact or_step_mono _ _
  · intro c res
    exact or_step_mono _ _
  · intro selK selR s
    exact shader_states_mono selK selR s
  · intro uD uB draw ib d
    exact finalize_ib_mono uD uB draw ib d
  · intro selK selR uD uB c draw
    have he : (ilo_finalize_3d_states selK selR uD uB c draw).1.sh.dirty =
        (finalize_index_buffer uD uB draw c.ib
          (finalize_shader_states selK selR c.sh).1.dirty).2.1 := rfl
    rw [he]
    exact or_mono_trans _ _ _ (shader_states_mono selK selR c.sh)
      (finalize_ib_mono uD uB draw c.ib _)
  · intro i st s d
    rw [set_constant_buffer_dirty]
    exact or_bit_ne d ILO_STATE_CONSTANT_BUFFER
  · intro mk a b v vp d
    rw [set_viewport_states_dirty]
    exact or_bit_ne d ILO_STATE_VIEWPORT
  · intro st ib d
    rw [set_index_buffer_dirty]
    exact or_bit_ne d ILO_STATE_INDEX_BUFFER
  · intro n sm sl c d
    exact or_bit_ne d ILO_STATE_FRAGMENT_SAMPLERS
  · intro a b sf sl c d
    exact or_bit_ne d ILO_STATE_SHADER_RESOURCES
  · intro a b sf sl c d
    exact or_bit_ne d ILO_STATE_COMPUTE_RESOURCES
  · intro a b rs sl c d
    exact or_bit_ne d ILO_STATE_GLOBAL_BINDING
  · intro s bl d
    exact or_bit_ne d ILO_STATE_BLEND
  · intro s ctx
    exact or_bit_ne ctx.dirty ILO_STATE_FS
